import Mathlib

/-!
Verification of the `yubetsu_cite` citation library (`yubetsu_cite/main.py`).

The Python code is shallowly embedded: the `Publication` class becomes a
structure, each method becomes a Lean function, and Python exceptions become
an explicit `Except PyErr` result.  Python truthiness (`if self.volume:`,
`not authors`, ...) and `None` interpolation (`f"{self.doi}"` printing
`None`) are modelled explicitly, as is Python list indexing (negative
indices wrap; out-of-range raises `IndexError`).
-/

/-- The exception kinds the Python module can raise:
`CitationError` (a `ValueError` subclass used for validation and author
format failures), `UnsupportedFormatError`, and the builtin `IndexError`
(raised by out-of-range list indexing, e.g. `[][-1]` or `MONTHS[13]`). -/
inductive PyErr where
  | citationError : String → PyErr
  | unsupportedFormatError : String → PyErr
  | indexError : PyErr
deriving DecidableEq, Repr

/-- Whitespace word-splitting on character lists: the accumulator holds the
current (reversed) in-progress word.  Models Python `str.split()` (no
separator argument), which drops empty fields. -/
def splitWsAux : List Char → List Char → List (List Char)
  | [], acc => if acc.isEmpty then [] else [acc.reverse]
  | c :: rest, acc =>
    if c.isWhitespace then
      if acc.isEmpty then splitWsAux rest [] else acc.reverse :: splitWsAux rest []
    else splitWsAux rest (c :: acc)

/-- Python `s.split()`: split on runs of whitespace, dropping empty fields. -/
def pySplitWs (s : String) : List String :=
  (splitWsAux s.data []).map String.mk

/-- Python `re.split(r'\s+', s.strip())` as used by the author formatters:
on a string whose strip is empty this returns `[""]` (one empty field);
otherwise it returns exactly the whitespace-separated words, i.e. the same
list as `s.split()`.  (`s.strip()` is empty exactly when `s.split()` is
empty, so the test is expressed through `pySplitWs`.) -/
def reSplitWsStrip (s : String) : List String :=
  let t := pySplitWs s
  if t.isEmpty then [""] else t

/-- Python `f"{x}"` for an `Optional[int]`: `None` prints as `"None"`. -/
def pyStrOptInt : Option Int → String
  | none => "None"
  | some i => toString i

/-- Python `f"{x}"` for an `Optional[str]`: `None` prints as `"None"`. -/
def pyStrOptStr : Option String → String
  | none => "None"
  | some s => s

/-- Python truthiness of an `Optional[int]`: `None` and `0` are falsy. -/
def truthyOptInt : Option Int → Bool
  | none => false
  | some i => i != 0

/-- Python truthiness of an `Optional[str]`: `None` and `""` are falsy. -/
def truthyOptStr : Option String → Bool
  | none => false
  | some s => s != ""

/-- Python list indexing `l[i]`: non-negative indices are direct,
negative indices count from the end, and anything out of range raises
`IndexError`. -/
def pyListGet (l : List String) (i : Int) : Except PyErr String :=
  if 0 ≤ i then
    if h : i.toNat < l.length then .ok (l.get ⟨i.toNat, h⟩)
    else .error .indexError
  else
    let j : Int := (l.length : Int) + i
    if 0 ≤ j then
      if h : j.toNat < l.length then .ok (l.get ⟨j.toNat, h⟩)
      else .error .indexError
    else .error .indexError

/-- Python `l[0]` on a list of strings. -/
def pyHead (l : List String) : Except PyErr String :=
  match l with
  | [] => .error .indexError
  | x :: _ => .ok x

/-- Python `l[-1]` on a list of strings. -/
def pyLast (l : List String) : Except PyErr String :=
  match l.getLast? with
  | none => .error .indexError
  | some x => .ok x

/-- Python `s[0]` on a string: the one-character string holding the first
character; raises `IndexError` on the empty string. -/
def pyCharAt0 (s : String) : Except PyErr String :=
  match s.data with
  | [] => .error .indexError
  | c :: _ => .ok (String.mk [c])

/-- Python `s.upper()` (ASCII case mapping, character by character). -/
def pyUpper (s : String) : String := String.mk (s.data.map Char.toUpper)

/-- Python `s.lower()` (ASCII case mapping, character by character). -/
def pyLower (s : String) : String := String.mk (s.data.map Char.toLower)

/-- Python `sep.join(l)`. -/
def pyJoin (sep : String) : List String → String
  | [] => ""
  | [a] => a
  | a :: b :: rest => a ++ sep ++ pyJoin sep (b :: rest)

/-- A Python list comprehension `[f(x) for x in l]` whose body can raise:
the first exception aborts the whole comprehension. -/
def pyMapM (f : String → Except PyErr String) : List String → Except PyErr (List String)
  | [] => .ok []
  | a :: rest => do
    let b ← f a
    let r ← pyMapM f rest
    pure (b :: r)

/-- Helper for Python `s.split(sep)` with a single-character separator:
keeps empty fields (unlike whitespace `split()`). -/
def splitOnCharAux (sep : Char) : List Char → List Char → List (List Char)
  | [], acc => [acc.reverse]
  | c :: rest, acc =>
    if c = sep then acc.reverse :: splitOnCharAux sep rest []
    else splitOnCharAux sep rest (c :: acc)

/-- Python `s.split(sep)` for a one-character `sep`. -/
def pySplitOnChar (s : String) (sep : Char) : List String :=
  (splitOnCharAux sep s.data []).map String.mk

/-- The `Publication` record after a successful `__init__`: `year` is known
to be a genuine integer (the constructor rejected `None`), `citekey` is the
stored (possibly derived) key, and the remaining fields are kept as passed. -/
structure Publication where
  authors : List String
  year : Int
  month : Option Int
  title : String
  journal : String
  volume : Option Int
  issue : Option Int
  pages : Option String
  doi : Option String
  database : Option String
  access_date : Option String
  citekey : String
deriving Repr

/-- `self.MONTHS`: index 0 is a blank placeholder. -/
def MONTHS : List String :=
  ["", "Jan", "Feb", "Mar", "Apr", "May", "Jun",
   "Jul", "Aug", "Sep", "Oct", "Nov", "Dec"]

/-- `Publication.__init__`: validation of the mandatory fields (Python
truthiness), then derivation of the default citekey
`authors[0].split()[-1].lower() + str(year)` when `citekey` is falsy.
The derivation itself can raise `IndexError` when `authors[0]` splits to
no words (a whitespace-only, hence truthy, author string). -/
def Publication.init (authors : List String) (year month : Option Int)
    (title journal : String) (volume issue : Option Int)
    (pages doi database access_date : Option String)
    (citekey : Option String) : Except PyErr Publication :=
  if authors.isEmpty || !(authors.all (fun a => a ≠ "")) then
    .error (.citationError "Authors are required and cannot be empty.")
  else if title = "" then
    .error (.citationError "Title is required and cannot be empty.")
  else if journal = "" then
    .error (.citationError "Journal or container name is required and cannot be empty.")
  else if year = none || year = some 0 then
    .error (.citationError "Year is required and cannot be empty.")
  else
    let y := year.getD 0
    if truthyOptStr citekey then
      .ok ⟨authors, y, month, title, journal, volume, issue, pages, doi,
           database, access_date, pyStrOptStr citekey⟩
    else
      match pyLast (pySplitWs (authors.headD "")) with
      | .error e => .error e
      | .ok tok =>
        .ok ⟨authors, y, month, title, journal, volume, issue, pages, doi,
             database, access_date, pyLower tok ++ toString y⟩

/-- `format_author_apa`: `Last, F. M.` (first letter of every word but the
last, each followed by a period, space-joined). -/
def Publication.format_author_apa (author : String) : Except PyErr String :=
  let name_parts := reSplitWsStrip author
  if name_parts.length < 2 then
    .error (.citationError ("Invalid author format: " ++ author))
  else
    let initials :=
      pyJoin (" ")
        ((name_parts.dropLast.filter (fun p => p ≠ "")).map
          (fun p => String.mk [p.front] ++ "."))
    .ok (name_parts.getLastD "" ++ ", " ++ initials)

/-- `format_authors_apa`: APA list-joining rules (1, 2, ≤ 20, > 20
authors).  An empty author list would reach `formatted_authors[-1]` and
raise `IndexError`, exactly as in Python. -/
def Publication.format_authors_apa (p : Publication) : Except PyErr String := do
  let f ← pyMapM Publication.format_author_apa p.authors
  if f.length = 1 then
    pure (f.headD "")
  else if f.length = 2 then
    pure (f.headD "" ++ " & " ++ f.getLastD "")
  else if f.length ≤ 20 then
    match f.getLast? with
    | none => .error .indexError
    | some last => pure (pyJoin (", ") f.dropLast ++ ", & " ++ last)
  else
    pure (pyJoin (", ") (f.take 19) ++ ", ... " ++ f.getLastD "")


/-- `format_author_mla`: first author `Family, Given`, second of two
`and Given Family`, first of three-plus `Family, Given et al.`; every other
(index, total) combination falls off the end of the Python function and
returns `None`. -/
def Publication.format_author_mla (author : String) (index total_authors : Nat) :
    Except PyErr (Option String) :=
  let name_parts := reSplitWsStrip author
  if name_parts.length < 2 then
    .error (.citationError ("Invalid author format: " ++ author))
  else
    let first_name := pyJoin (" ") name_parts.dropLast
    let last_name := name_parts.getLastD ""
    if total_authors = 1 then
      .ok (some (last_name ++ ", " ++ first_name))
    else if total_authors = 2 then
      if index = 0 then .ok (some (last_name ++ ", " ++ first_name))
      else if index = 1 then .ok (some ("and " ++ first_name ++ " " ++ last_name))
      else .ok none
    else if total_authors > 2 ∧ index = 0 then
      .ok (some (last_name ++ ", " ++ first_name ++ " et al."))
    else .ok none

/-- The loop body of `format_authors_mla`: formats each author with its
index, keeping only truthy results (Python drops both `None` and `""`). -/
def Publication.format_authors_mla_aux (authors : List String) (index total : Nat) :
    Except PyErr (List String) :=
  match authors with
  | [] => .ok []
  | a :: rest => do
    let fa ← Publication.format_author_mla a index total
    let r ← Publication.format_authors_mla_aux rest (index + 1) total
    match fa with
    | some s => if s ≠ "" then pure (s :: r) else pure r
    | none => pure r

/-- `format_authors_mla`: space-join of the kept per-author results. -/
def Publication.format_authors_mla (p : Publication) : Except PyErr String := do
  let l ← Publication.format_authors_mla_aux p.authors 0 p.authors.length
  pure (pyJoin (" ") l)

/-- `format_author_ama`: `Token0 FirstInitialMiddleInitial` (token 0 is
treated as the family name; initials come from tokens 1 and 2). -/
def Publication.format_author_ama (author : String) : Except PyErr String :=
  let name_parts := reSplitWsStrip author
  if name_parts.length < 2 then
    .error (.citationError ("Invalid author format: " ++ author))
  else
    let last_name := name_parts.headD ""
    let first_initial :=
      if name_parts.length > 1 then String.mk [(name_parts.getD 1 "").front] else ""
    let middle_initial :=
      if name_parts.length > 2 then String.mk [(name_parts.getD 2 "").front] else ""
    let formatted := last_name ++ " " ++ first_initial
    .ok (if middle_initial ≠ "" then formatted ++ middle_initial else formatted)

/-- `format_authors_ama`: more than 6 authors keeps the first 3 plus
`, et al.`; otherwise all are comma-joined. -/
def Publication.format_authors_ama (p : Publication) : Except PyErr String := do
  let f ← pyMapM Publication.format_author_ama p.authors
  if p.authors.length > 6 then
    pure (pyJoin (", ") (f.take 3) ++ ", et al.")
  else
    pure (pyJoin (", ") f)

/-- `format_author_nlm`: identical algorithm to `format_author_ama`. -/
def Publication.format_author_nlm (author : String) : Except PyErr String :=
  let name_parts := reSplitWsStrip author
  if name_parts.length < 2 then
    .error (.citationError ("Invalid author format: " ++ author))
  else
    let last_name := name_parts.headD ""
    let first_initial :=
      if name_parts.length > 1 then String.mk [(name_parts.getD 1 "").front] else ""
    let middle_initial :=
      if name_parts.length > 2 then String.mk [(name_parts.getD 2 "").front] else ""
    let formatted := last_name ++ " " ++ first_initial
    .ok (if middle_initial ≠ "" then formatted ++ middle_initial else formatted)

/-- `format_authors_nlm`: more than 3 authors keeps the first 3 plus
`, and others`; otherwise all are comma-joined. -/
def Publication.format_authors_nlm (p : Publication) : Except PyErr String := do
  let f ← pyMapM Publication.format_author_nlm p.authors
  if f.length > 3 then
    pure (pyJoin (", ") (f.take 3) ++ ", and others")
  else
    pure (pyJoin (", ") f)

/-- `format_authors_chicago`: raw author strings, joined by the 1/2/3/more
rules. -/
def Publication.format_authors_chicago (p : Publication) : Except PyErr String :=
  if p.authors.length = 0 then
    .error (.citationError "No authors provided.")
  else if p.authors.length = 1 then
    .ok (p.authors.headD "")
  else if p.authors.length = 2 then
    .ok (p.authors.headD "" ++ " and " ++ p.authors.getLastD "")
  else if p.authors.length = 3 then
    .ok (pyJoin (", ") p.authors.dropLast ++ ", and " ++ p.authors.getLastD "")
  else
    .ok (p.authors.headD "" ++ " et al.")

/-- The comprehension body of `format_authors_ieee`:
`f"{author.split()[0][0]}. {author.split()[-1]}"`; raises `IndexError` on a
whitespace-only author. -/
def Publication.format_author_ieee (author : String) : Except PyErr String := do
  let parts := pySplitWs author
  let h ← pyHead parts
  let c ← pyCharAt0 h
  let l ← pyLast parts
  pure (c ++ ". " ++ l)

/-- `format_authors_ieee`: `et al.` after the first author from 3 authors
up (in-text) or 6 up (reference list); otherwise comma-join all but the
last, then `" and "` and the last (raising `IndexError` on no authors). -/
def Publication.format_authors_ieee (p : Publication) (in_text : Bool) :
    Except PyErr String := do
  let f ← pyMapM Publication.format_author_ieee p.authors
  if in_text then
    if f.length ≥ 3 then pure (f.headD "" ++ " et al.")
    else
      match f.getLast? with
      | none => .error .indexError
      | some last => pure (pyJoin (", ") f.dropLast ++ " and " ++ last)
  else
    if f.length ≥ 6 then pure (f.headD "" ++ " et al.")
    else
      match f.getLast? with
      | none => .error .indexError
      | some last => pure (pyJoin (", ") f.dropLast ++ " and " ++ last)

/-- `generate_apa_citation`. -/
def Publication.generate_apa_citation (p : Publication) (style : String) :
    Except PyErr String :=
  if style = "raw" then do
    let authors ← Publication.format_authors_apa p
    let c0 := authors ++ " (" ++ toString p.year ++ "). " ++ p.title ++ ". " ++ p.journal
    let c1 := if truthyOptInt p.volume then c0 ++ ", " ++ pyStrOptInt p.volume else c0
    let c2 := if truthyOptInt p.issue then c1 ++ "(" ++ pyStrOptInt p.issue ++ ")" else c1
    let c3 := if truthyOptStr p.pages then c2 ++ ", " ++ pyStrOptStr p.pages else c2
    pure (c3 ++ ". https://doi.org/" ++ pyStrOptStr p.doi)
  else if style = "html" then do
    let authors ← Publication.format_authors_apa p
    let c0 := authors ++ " (" ++ toString p.year ++ "). " ++ "<i>" ++ p.title ++ "</i>" ++
      ". " ++ "<i>" ++ p.journal ++ "</i>"
    let c1 := if truthyOptInt p.volume then c0 ++ ", <b>" ++ pyStrOptInt p.volume ++ "</b>" else c0
    let c2 := if truthyOptInt p.issue then c1 ++ "(" ++ pyStrOptInt p.issue ++ ")" else c1
    let c3 := if truthyOptStr p.pages then c2 ++ ", " ++ pyStrOptStr p.pages else c2
    pure (c3 ++ ". " ++ "<a href=\x27https://doi.org/" ++ pyStrOptStr p.doi ++ "\x27>" ++
      "https://doi.org/" ++ pyStrOptStr p.doi ++ "</a>")
  else
    .error (.citationError "Invalid style type. Use 'raw' or 'html'.")

/-- `generate_mla_citation`. -/
def Publication.generate_mla_citation (p : Publication) (style : String) :
    Except PyErr String :=
  if style = "raw" then do
    let authors ← Publication.format_authors_mla p
    let c0 := authors ++ ". \"" ++ p.title ++ ".\" " ++ p.journal
    let c1 := if truthyOptInt p.volume then c0 ++ ", vol. " ++ pyStrOptInt p.volume else c0
    let c2 := if truthyOptInt p.issue then c1 ++ ", no. " ++ pyStrOptInt p.issue else c1
    let c3 := if truthyOptStr p.pages then c2 ++ ", pp. " ++ pyStrOptStr p.pages else c2
    let c4 := c3 ++ ", " ++ toString p.year ++ "."
    let c5 := if truthyOptStr p.database then c4 ++ " " ++ pyStrOptStr p.database ++ "." else c4
    pure (if truthyOptStr p.doi then c5 ++ " doi:" ++ pyStrOptStr p.doi ++ "." else c5)
  else if style = "html" then do
    let authors ← Publication.format_authors_mla p
    let c0 := authors ++ ". \"" ++ "<i>" ++ p.title ++ "</i>" ++ ".\" " ++ "<i>" ++ p.journal ++ "</i>"
    let c1 := if truthyOptInt p.volume then c0 ++ ", vol. " ++ pyStrOptInt p.volume else c0
    let c2 := if truthyOptInt p.issue then c1 ++ ", no. " ++ pyStrOptInt p.issue else c1
    let c3 := if truthyOptStr p.pages then c2 ++ ", pp. " ++ pyStrOptStr p.pages else c2
    let c4 := c3 ++ ", " ++ toString p.year ++ "."
    let c5 := if truthyOptStr p.database then c4 ++ " <i>" ++ pyStrOptStr p.database ++ "</i>." else c4
    pure (if truthyOptStr p.doi then
      c5 ++ " doi:" ++ "<a href=\x27https://doi.org/" ++ pyStrOptStr p.doi ++ "\x27>" ++
        pyStrOptStr p.doi ++ "</a>" ++ "."
    else c5)
  else
    .error (.citationError "Invalid style type. Use 'raw' or 'html'.")

/-- `generate_ama_citation`. -/
def Publication.generate_ama_citation (p : Publication) (style : String) :
    Except PyErr String :=
  if style = "raw" then do
    let authors ← Publication.format_authors_ama p
    let c0 := authors ++ ". " ++ p.title ++ ". " ++ p.journal ++ ". " ++ toString p.year ++ ";"
    let c1 := if truthyOptInt p.volume then c0 ++ pyStrOptInt p.volume else c0
    let c2 := if truthyOptInt p.issue then c1 ++ "(" ++ pyStrOptInt p.issue ++ ")" else c1
    let c3 := if truthyOptStr p.pages then c2 ++ ":" ++ pyStrOptStr p.pages ++ "." else c2
    pure (if truthyOptStr p.doi then c3 ++ " doi:" ++ pyStrOptStr p.doi ++ "." else c3)
  else if style = "html" then do
    let authors ← Publication.format_authors_ama p
    let c0 := authors ++ ". " ++ "<i>" ++ p.title ++ "</i>" ++ ". " ++ "<i>" ++ p.journal ++
      "</i>" ++ ". " ++ toString p.year ++ ";"
    let c1 := if truthyOptInt p.volume then c0 ++ " " ++ pyStrOptInt p.volume else c0
    let c2 := if truthyOptInt p.issue then c1 ++ "(" ++ pyStrOptInt p.issue ++ ")" else c1
    let c3 := if truthyOptStr p.pages then c2 ++ ":" ++ pyStrOptStr p.pages ++ "." else c2
    pure (if truthyOptStr p.doi then
      c3 ++ " doi:" ++ "<a href=\x27https://doi.org/" ++ pyStrOptStr p.doi ++ "\x27>" ++
        pyStrOptStr p.doi ++ "</a>" ++ "."
    else c3)
  else
    .error (.citationError "Invalid style type. Use 'raw' or 'html'.")

/-- The Python conditional expression
`self.MONTHS[self.month] if self.month else ""` used by the NLM and
Chicago assemblers. -/
def getMonthName (month : Option Int) : Except PyErr String :=
  if truthyOptInt month then pyListGet MONTHS (month.getD 0) else pure ""

/-- `generate_raw_nlm_citation`. -/
def Publication.generate_raw_nlm_citation (p : Publication) : Except PyErr String := do
  let authors ← Publication.format_authors_nlm p
  let c0 := authors ++ ". " ++ p.title ++ ". " ++ p.journal ++ "."
  let month_name ← getMonthName p.month
  let c1 :=
    if month_name ≠ "" then c0 ++ " " ++ toString p.year ++ " " ++ month_name ++ ";"
    else c0 ++ " " ++ toString p.year ++ ";"
  let c2 := if truthyOptInt p.volume then c1 ++ pyStrOptInt p.volume else c1
  let c3 := if truthyOptInt p.issue then c2 ++ "(" ++ pyStrOptInt p.issue ++ ")" else c2
  let c4 := if truthyOptStr p.pages then c3 ++ ":" ++ pyStrOptStr p.pages else c3
  pure (if truthyOptStr p.doi then c4 ++ ". doi:" ++ pyStrOptStr p.doi ++ "." else c4)

/-- `generate_html_nlm_citation` (note: no italics markup around title or
journal; only the DOI gains an anchor). -/
def Publication.generate_html_nlm_citation (p : Publication) : Except PyErr String := do
  let authors ← Publication.format_authors_nlm p
  let c0 := authors ++ ". " ++ p.title ++ ". " ++ p.journal ++ "."
  let month_name ← getMonthName p.month
  let c1 :=
    if month_name ≠ "" then c0 ++ " " ++ toString p.year ++ " " ++ month_name ++ ";"
    else c0 ++ " " ++ toString p.year ++ ";"
  let c2 := if truthyOptInt p.volume then c1 ++ pyStrOptInt p.volume else c1
  let c3 := if truthyOptInt p.issue then c2 ++ "(" ++ pyStrOptInt p.issue ++ ")" else c2
  let c4 := if truthyOptStr p.pages then c3 ++ ":" ++ pyStrOptStr p.pages else c3
  pure (if truthyOptStr p.doi then
    c4 ++ ". doi:" ++ "<a href=\x27https://doi.org/" ++ pyStrOptStr p.doi ++ "\x27>" ++
      pyStrOptStr p.doi ++ "</a>" ++ "."
  else c4)

/-- `generate_raw_chicago_citation`: volume, issue and pages are
interpolated unconditionally (a missing one prints as `None`). -/
def Publication.generate_raw_chicago_citation (p : Publication) : Except PyErr String := do
  let authors ← Publication.format_authors_chicago p
  let month_name ← getMonthName p.month
  let month_part :=
    if month_name ≠ "" then " (" ++ month_name ++ " " ++ toString p.year ++ ")"
    else " (" ++ toString p.year ++ ")"
  let c := authors ++ ". \"" ++ p.title ++ ".\" " ++ p.journal ++ " " ++
    pyStrOptInt p.volume ++ ", no. " ++ pyStrOptInt p.issue ++ month_part ++ ": " ++
    pyStrOptStr p.pages ++ "."
  pure (if truthyOptStr p.doi then c ++ " https://doi.org/" ++ pyStrOptStr p.doi ++ "." else c)

/-- `generate_html_chicago_citation`. -/
def Publication.generate_html_chicago_citation (p : Publication) : Except PyErr String := do
  let authors ← Publication.format_authors_chicago p
  let month_name ← getMonthName p.month
  let month_part :=
    if month_name ≠ "" then " (" ++ month_name ++ " " ++ toString p.year ++ ")"
    else " (" ++ toString p.year ++ ")"
  let c := authors ++ ". \"" ++ "<i>" ++ p.title ++ "</i>" ++ ".\" " ++ "<i>" ++ p.journal ++ "</i>" ++ " " ++
    pyStrOptInt p.volume ++ ", no. " ++ pyStrOptInt p.issue ++ month_part ++ ": " ++
    pyStrOptStr p.pages ++ "."
  pure (if truthyOptStr p.doi then
    c ++ " " ++ "<a href=\x27https://doi.org/" ++ pyStrOptStr p.doi ++ "\x27>" ++
      "https://doi.org/" ++ pyStrOptStr p.doi ++ "</a>" ++ "."
  else c)

/-- `generate_raw_ieee_citation`: volume, issue and pages interpolated
unconditionally. -/
def Publication.generate_raw_ieee_citation (p : Publication) : Except PyErr String := do
  let authors ← Publication.format_authors_ieee p false
  let c := authors ++ ", \"" ++ p.title ++ ",\" " ++ p.journal ++ ", vol. " ++
    pyStrOptInt p.volume ++ ", no. " ++ pyStrOptInt p.issue ++ ", pp. " ++
    pyStrOptStr p.pages ++ ", " ++ toString p.year ++ "."
  pure (if truthyOptStr p.doi then c ++ " doi: " ++ pyStrOptStr p.doi ++ "." else c)

/-- `generate_html_ieee_citation`. -/
def Publication.generate_html_ieee_citation (p : Publication) : Except PyErr String := do
  let authors ← Publication.format_authors_ieee p false
  let c := authors ++ ", \"" ++ "<i>" ++ p.title ++ "</i>" ++ ",\" " ++ "<i>" ++ p.journal ++ "</i>" ++ ", vol. " ++
    pyStrOptInt p.volume ++ ", no. " ++ pyStrOptInt p.issue ++ ", pp. " ++
    pyStrOptStr p.pages ++ ", " ++ toString p.year ++ "."
  pure (if truthyOptStr p.doi then
    c ++ " doi: " ++ "<a href=\x27https://doi.org/" ++ pyStrOptStr p.doi ++ "\x27>" ++
      pyStrOptStr p.doi ++ "</a>" ++ "."
  else c)

/-- `generate_bibtex`: always emits author/title/journal/year lines, then
one line per present (truthy) optional field; in `pages` every `-` becomes
`--` via `"--".join(pages.split("-"))`. -/
def Publication.generate_bibtex (p : Publication) : String :=
  let authors_bibtex := pyJoin (" and ") p.authors
  let c0 := "@article\x7b" ++ p.citekey ++ ",\n"
  let c1 := c0 ++ "  author = \x7b" ++ authors_bibtex ++ "\x7d,\n"
  let c2 := c1 ++ "  title = \x7b" ++ p.title ++ "\x7d,\n"
  let c3 := c2 ++ "  journal = \x7b" ++ p.journal ++ "\x7d,\n"
  let c4 := c3 ++ "  year = \x7b" ++ toString p.year ++ "\x7d,\n"
  let c5 :=
    if truthyOptInt p.volume then c4 ++ "  volume = \x7b" ++ pyStrOptInt p.volume ++ "\x7d,\n"
    else c4
  let c6 :=
    if truthyOptInt p.issue then c5 ++ "  number = \x7b" ++ pyStrOptInt p.issue ++ "\x7d,\n"
    else c5
  let c7 :=
    if truthyOptStr p.pages then
      c6 ++ "  pages = \x7b" ++ pyJoin ("--") (pySplitOnChar (pyStrOptStr p.pages) '-') ++ "\x7d,\n"
    else c6
  let c8 :=
    if truthyOptStr p.doi then c7 ++ "  doi = \x7b" ++ pyStrOptStr p.doi ++ "\x7d,\n"
    else c7
  c8 ++ "\x7d"

/-- `generate_citation`: uppercase the format, dispatch.  APA/MLA/AMA pass
the encoding down (their assemblers raise `CitationError` on an unknown
one); NLM/CHICAGO/IEEE branch here and raise `UnsupportedFormatError` on an
unknown encoding; BIBTEX ignores the encoding; unknown formats raise
`UnsupportedFormatError`. -/
def Publication.generate_citation (p : Publication) (format_type style : String) :
    Except PyErr String :=
  let ft := pyUpper format_type
  if ft = "APA" then Publication.generate_apa_citation p style
  else if ft = "MLA" then Publication.generate_mla_citation p style
  else if ft = "AMA" then Publication.generate_ama_citation p style
  else if ft = "NLM" then
    if style = "raw" then Publication.generate_raw_nlm_citation p
    else if style = "html" then Publication.generate_html_nlm_citation p
    else .error (.unsupportedFormatError (style ++ " style is not supported."))
  else if ft = "CHICAGO" then
    if style = "raw" then Publication.generate_raw_chicago_citation p
    else if style = "html" then Publication.generate_html_chicago_citation p
    else .error (.unsupportedFormatError (style ++ " style is not supported."))
  else if ft = "IEEE" then
    if style = "raw" then Publication.generate_raw_ieee_citation p
    else if style = "html" then Publication.generate_html_ieee_citation p
    else .error (.unsupportedFormatError (style ++ " style is not supported."))
  else if ft = "BIBTEX" then .ok (Publication.generate_bibtex p)
  else .error (.unsupportedFormatError (ft ++ " format is not supported."))

/-! ### Basic facts about the string model -/

theorem strData_append (a b : String) : (a ++ b).data = a.data ++ b.data := by
  cases a; cases b; rfl

theorem strAppend_assoc (a b c : String) : a ++ b ++ c = a ++ (b ++ c) := by
  apply String.ext
  simp [strData_append]

theorem strMk_ne_empty (c : Char) (cs : List Char) : String.mk (c :: cs) ≠ "" := by
  intro h
  exact absurd (congrArg String.data h) (by simp)

theorem exOk_bind {α β : Type} (a : α) (f : α → Except PyErr β) :
    (Except.ok a >>= f) = f a := rfl

theorem exErr_bind {α β : Type} (e : PyErr) (f : α → Except PyErr β) :
    ((Except.error e : Except PyErr α) >>= f) = .error e := rfl

theorem exPure {α : Type} (a : α) : (pure a : Except PyErr α) = .ok a := rfl

theorem splitWsAux_ne_nil (cs : List Char) :
    ∀ (acc : List Char), ∀ t ∈ splitWsAux cs acc, t ≠ [] := by
  induction cs with
  | nil =>
    intro acc t ht
    simp only [splitWsAux] at ht
    split at ht
    · simp at ht
    · next h =>
      simp only [List.mem_singleton] at ht
      subst ht
      simp only [List.isEmpty_iff] at h
      simpa using h
  | cons c rest ih =>
    intro acc t ht
    simp only [splitWsAux] at ht
    split at ht
    · split at ht
      · exact ih [] t ht
      · next h =>
        rcases List.mem_cons.mp ht with h1 | h1
        · subst h1
          simp only [List.isEmpty_iff] at h
          simpa using h
        · exact ih [] t h1
    · exact ih (c :: acc) t ht

theorem splitWsAux_subset (cs : List Char) :
    ∀ (acc : List Char), ∀ t ∈ splitWsAux cs acc, ∀ c ∈ t, c ∈ cs ∨ c ∈ acc := by
  induction cs with
  | nil =>
    intro acc t ht c hc
    simp only [splitWsAux] at ht
    split at ht
    · simp at ht
    · simp only [List.mem_singleton] at ht
      subst ht
      exact Or.inr (List.mem_reverse.mp hc)
  | cons d rest ih =>
    intro acc t ht c hc
    simp only [splitWsAux] at ht
    split at ht
    · split at ht
      · rcases ih [] t ht c hc with h1 | h1
        · exact Or.inl (List.mem_cons_of_mem d h1)
        · simp at h1
      · rcases List.mem_cons.mp ht with h1 | h1
        · subst h1
          exact Or.inr (List.mem_reverse.mp hc)
        · rcases ih [] t h1 c hc with h2 | h2
          · exact Or.inl (List.mem_cons_of_mem d h2)
          · simp at h2
    · rcases ih (d :: acc) t ht c hc with h1 | h1
      · exact Or.inl (List.mem_cons_of_mem d h1)
      · rcases List.mem_cons.mp h1 with h2 | h2
        · exact Or.inl (h2 ▸ List.mem_cons_self d rest)
        · exact Or.inr h2

theorem pySplitWs_ne_empty (s : String) : ∀ t ∈ pySplitWs s, t ≠ "" := by
  intro t ht
  simp only [pySplitWs, List.mem_map] at ht
  obtain ⟨l, hl, rfl⟩ := ht
  have := splitWsAux_ne_nil s.data [] l hl
  cases l with
  | nil => exact absurd rfl this
  | cons c cs => exact strMk_ne_empty c cs

theorem pySplitWs_chars (s : String) : ∀ t ∈ pySplitWs s, ∀ c ∈ t.data, c ∈ s.data := by
  intro t ht c hc
  simp only [pySplitWs, List.mem_map] at ht
  obtain ⟨l, hl, rfl⟩ := ht
  rcases splitWsAux_subset s.data [] l hl c hc with h | h
  · exact h
  · simp at h

theorem reSplitWsStrip_of_two {a : String} (h : 2 ≤ (pySplitWs a).length) :
    reSplitWsStrip a = pySplitWs a := by
  unfold reSplitWsStrip
  have : ¬ (pySplitWs a).isEmpty := by
    cases hl : pySplitWs a with
    | nil => rw [hl] at h; simp at h
    | cons x xs => simp
  simp [this]

/-! ### Markup-free strings -/

/-- `s` contains no HTML markup characters. -/
def NoMarkup (s : String) : Prop := ∀ c ∈ s.data, c ≠ '<' ∧ c ≠ '>'

theorem noMarkup_append {a b : String} (ha : NoMarkup a) (hb : NoMarkup b) :
    NoMarkup (a ++ b) := by
  intro c hc
  rw [strData_append] at hc
  rcases List.mem_append.mp hc with h | h
  · exact ha c h
  · exact hb c h

theorem noMarkup_join {sep : String} {l : List String} (hs : NoMarkup sep)
    (hl : ∀ t ∈ l, NoMarkup t) : NoMarkup (pyJoin sep l) := by
  induction l with
  | nil => intro c hc; simp [pyJoin] at hc
  | cons a rest ih =>
    cases rest with
    | nil => exact hl a (by simp)
    | cons b r =>
      have h1 : NoMarkup (pyJoin sep (b :: r)) :=
        ih (fun t ht => hl t (List.mem_cons_of_mem a ht))
      exact noMarkup_append (noMarkup_append (hl a (by simp)) hs) h1

theorem noMarkup_of_mem_pySplitWs {s t : String} (hs : NoMarkup s)
    (ht : t ∈ pySplitWs s) : NoMarkup t :=
  fun c hc => hs c (pySplitWs_chars s t ht c hc)

/-! ### The month table -/

theorem monthsGet_ok {m : Int} (h1 : 1 ≤ m) (h2 : m ≤ 12) :
    ∃ s, pyListGet MONTHS m = .ok s ∧ s ∈ MONTHS ∧ s ≠ "" := by
  interval_cases m <;> exact ⟨_, rfl, by decide, by decide⟩

theorem monthsGet_err {m : Int} (h : 13 ≤ m) :
    pyListGet MONTHS m = .error .indexError := by
  unfold pyListGet
  rw [if_pos (by omega)]
  rw [dif_neg]
  have : MONTHS.length = 13 := rfl
  rw [this]
  omega

instance (s : String) : Decidable (NoMarkup s) :=
  inferInstanceAs (Decidable (∀ c ∈ s.data, c ≠ '<' ∧ c ≠ '>'))

theorem digitChar_noMarkup (n : Nat) : Nat.digitChar n ≠ '<' ∧ Nat.digitChar n ≠ '>' := by
  by_cases h : n < 16
  · interval_cases n <;> decide
  · have h16 : Nat.digitChar n = '*' := by
      unfold Nat.digitChar
      repeat rw [if_neg (by omega)]
    rw [h16]
    decide

theorem toDigitsCore_noMarkup (b fuel : Nat) :
    ∀ (n : Nat) (ds : List Char), (∀ c ∈ ds, c ≠ '<' ∧ c ≠ '>') →
    ∀ c ∈ Nat.toDigitsCore b fuel n ds, c ≠ '<' ∧ c ≠ '>' := by
  induction fuel with
  | zero =>
    intro n ds hds c hc
    simp only [Nat.toDigitsCore] at hc
    exact hds c hc
  | succ fuel ih =>
    intro n ds hds c hc
    simp only [Nat.toDigitsCore] at hc
    split at hc
    · rcases List.mem_cons.mp hc with h | h
      · exact h ▸ digitChar_noMarkup _
      · exact hds c h
    · refine ih _ _ (fun d hd => ?_) c hc
      rcases List.mem_cons.mp hd with h | h
      · exact h ▸ digitChar_noMarkup _
      · exact hds d h

theorem natRepr_noMarkup (n : Nat) : NoMarkup (Nat.repr n) := by
  intro c hc
  have h : (Nat.repr n).data = Nat.toDigitsCore 10 (n + 1) n [] := rfl
  rw [h] at hc
  exact toDigitsCore_noMarkup 10 (n + 1) n [] (by simp) c hc

theorem intToString_noMarkup (i : Int) : NoMarkup (toString i) := by
  cases i with
  | ofNat m => exact natRepr_noMarkup m
  | negSucc m =>
    have h : toString (Int.negSucc m) = "-" ++ Nat.repr (m + 1) := rfl
    rw [h]
    exact noMarkup_append (by decide) (natRepr_noMarkup (m + 1))

theorem pyStrOptInt_noMarkup (o : Option Int) : NoMarkup (pyStrOptInt o) := by
  cases o with
  | none => decide
  | some i => exact intToString_noMarkup i

theorem pyStrOptStr_noMarkup {o : Option String}
    (h : ∀ s, o = some s → NoMarkup s) : NoMarkup (pyStrOptStr o) := by
  cases o with
  | none => decide
  | some s => exact h s rfl

/-! ### List membership helpers -/

theorem getLastD_mem {l : List String} (h : l ≠ []) : l.getLastD "" ∈ l := by
  cases l with
  | nil => exact absurd rfl h
  | cons a as =>
    rw [List.getLastD_eq_getLast?, List.getLast?_eq_getLast (a :: as) (by simp)]
    exact List.getLast_mem _

theorem headD_mem {l : List String} (h : l ≠ []) : l.headD "" ∈ l := by
  cases l with
  | nil => exact absurd rfl h
  | cons a as => simp

theorem getD_mem {l : List String} {i : Nat} (h : i < l.length) : l.getD i "" ∈ l := by
  rw [List.getD_eq_getElem?_getD, List.getElem?_eq_getElem h]
  exact List.getElem_mem h

theorem front_mem {p : String} (h : p ≠ "") : p.front ∈ p.data := by
  cases hp : p.data with
  | nil => exact absurd (String.ext hp) h
  | cons c cs =>
    have h1 : p = String.mk (c :: cs) := String.ext (by rw [hp])
    subst h1
    have h2 : (String.mk (c :: cs)).front = c := rfl
    rw [h2]
    simp

theorem pyLast_ok {l : List String} (h : l ≠ []) : ∃ x, pyLast l = .ok x ∧ x ∈ l := by
  unfold pyLast
  rw [List.getLast?_eq_getLast l h]
  exact ⟨l.getLast h, rfl, List.getLast_mem h⟩

/-! ### Per-author formatter lemmas -/

theorem fa_apa_ok {a : String} (h : 2 ≤ (pySplitWs a).length) :
    ∃ s, Publication.format_author_apa a = .ok s ∧ (NoMarkup a → NoMarkup s) := by
  have hne : pySplitWs a ≠ [] := by
    intro hnil; rw [hnil] at h; simp at h
  unfold Publication.format_author_apa
  rw [reSplitWsStrip_of_two h, if_neg (by omega)]
  refine ⟨_, rfl, fun hna => ?_⟩
  apply noMarkup_append
  apply noMarkup_append
  · exact noMarkup_of_mem_pySplitWs hna (getLastD_mem hne)
  · decide
  · apply noMarkup_join (by decide)
    intro t ht
    simp only [List.mem_map] at ht
    obtain ⟨x, hx, rfl⟩ := ht
    have hxmem : x ∈ pySplitWs a :=
      List.dropLast_subset _ (List.mem_of_mem_filter hx)
    have hxnm := noMarkup_of_mem_pySplitWs hna hxmem
    have hxne : x ≠ "" := pySplitWs_ne_empty a x hxmem
    apply noMarkup_append
    · intro c hc
      have hc' : c = x.front := by simpa using hc
      exact hc' ▸ hxnm x.front (front_mem hxne)
    · decide

theorem fa_mla_ok {a : String} (h : 2 ≤ (pySplitWs a).length) (i t : Nat) :
    ∃ o, Publication.format_author_mla a i t = .ok o ∧
      (NoMarkup a → ∀ s, o = some s → NoMarkup s) := by
  have hne : pySplitWs a ≠ [] := by
    intro hnil; rw [hnil] at h; simp at h
  have hlast : NoMarkup a → NoMarkup ((pySplitWs a).getLastD "") := fun hna =>
    noMarkup_of_mem_pySplitWs hna (getLastD_mem hne)
  have hfirst : NoMarkup a → NoMarkup (pyJoin (" ") (pySplitWs a).dropLast) := by
    intro hna
    apply noMarkup_join (by decide)
    intro x hx
    exact noMarkup_of_mem_pySplitWs hna (List.dropLast_subset _ hx)
  unfold Publication.format_author_mla
  rw [reSplitWsStrip_of_two h, if_neg (by omega)]
  split_ifs with h1 h2 h3 h4 h5
  · refine ⟨_, rfl, fun hna s hs => ?_⟩
    cases hs
    exact noMarkup_append (noMarkup_append (hlast hna) (by decide)) (hfirst hna)
  · refine ⟨_, rfl, fun hna s hs => ?_⟩
    cases hs
    exact noMarkup_append (noMarkup_append (hlast hna) (by decide)) (hfirst hna)
  · refine ⟨_, rfl, fun hna s hs => ?_⟩
    cases hs
    exact noMarkup_append
      (noMarkup_append (noMarkup_append (by decide) (hfirst hna)) (by decide)) (hlast hna)
  · exact ⟨_, rfl, fun hna s hs => by cases hs⟩
  · refine ⟨_, rfl, fun hna s hs => ?_⟩
    cases hs
    exact noMarkup_append
      (noMarkup_append (noMarkup_append (hlast hna) (by decide)) (hfirst hna)) (by decide)
  · exact ⟨_, rfl, fun hna s hs => by cases hs⟩

theorem fa_ama_ok {a : String} (h : 2 ≤ (pySplitWs a).length) :
    ∃ s, Publication.format_author_ama a = .ok s ∧ (NoMarkup a → NoMarkup s) := by
  have hne : pySplitWs a ≠ [] := by
    intro hnil; rw [hnil] at h; simp at h
  unfold Publication.format_author_ama
  rw [reSplitWsStrip_of_two h, if_neg (by omega)]
  refine ⟨_, rfl, fun hna => ?_⟩
  have hhead : NoMarkup ((pySplitWs a).headD "") :=
    noMarkup_of_mem_pySplitWs hna (headD_mem hne)
  have hfi : ∀ j : Nat, (pySplitWs a).length > j →
      NoMarkup (String.mk [((pySplitWs a).getD j "").front]) := by
    intro j hj
    have hmem : (pySplitWs a).getD j "" ∈ pySplitWs a := getD_mem hj
    intro d hd
    have hd' : d = ((pySplitWs a).getD j "").front := by simpa using hd
    exact hd' ▸ noMarkup_of_mem_pySplitWs hna hmem _
      (front_mem (pySplitWs_ne_empty a _ hmem))
  split_ifs
  all_goals repeat' apply noMarkup_append
  all_goals first
    | exact hhead
    | exact hfi 1 (by omega)
    | exact hfi 2 (by omega)
    | decide

theorem fa_nlm_ok {a : String} (h : 2 ≤ (pySplitWs a).length) :
    ∃ s, Publication.format_author_nlm a = .ok s ∧ (NoMarkup a → NoMarkup s) := by
  have heq : Publication.format_author_nlm a = Publication.format_author_ama a := rfl
  rw [heq]
  exact fa_ama_ok h

theorem fa_ieee_ok {a : String} (h : 2 ≤ (pySplitWs a).length) :
    ∃ s, Publication.format_author_ieee a = .ok s ∧ (NoMarkup a → NoMarkup s) := by
  have hne : pySplitWs a ≠ [] := by
    intro hnil; rw [hnil] at h; simp at h
  obtain ⟨x, xs, hxs⟩ : ∃ x xs, pySplitWs a = x :: xs := by
    cases hl : pySplitWs a with
    | nil => exact absurd hl hne
    | cons x xs => exact ⟨x, xs, rfl⟩
  have hxmem : x ∈ pySplitWs a := by rw [hxs]; simp
  have hxne : x ≠ "" := pySplitWs_ne_empty a x hxmem
  obtain ⟨c, cs, hcs⟩ : ∃ c cs, x.data = c :: cs := by
    cases hd : x.data with
    | nil => exact absurd (String.ext hd) hxne
    | cons c cs => exact ⟨c, cs, rfl⟩
  obtain ⟨last, hlastEq, hlastMem⟩ := pyLast_ok (l := x :: xs) (by simp)
  unfold Publication.format_author_ieee
  rw [hxs]
  have h1 : pyHead (x :: xs) = .ok x := rfl
  have h2 : pyCharAt0 x = .ok (String.mk [c]) := by
    unfold pyCharAt0
    rw [hcs]
  dsimp only
  rw [h1, exOk_bind, h2, exOk_bind, hlastEq, exOk_bind, exPure]
  refine ⟨_, rfl, fun hna => ?_⟩
  apply noMarkup_append
  apply noMarkup_append
  · intro d hd
    have hd' : d = c := by simpa using hd
    have hcmem : c ∈ x.data := by rw [hcs]; simp
    exact hd' ▸ noMarkup_of_mem_pySplitWs hna hxmem c hcmem
  · decide
  · exact noMarkup_of_mem_pySplitWs hna (hxs ▸ hlastMem)

/-! ### Record validity and list-level formatter lemmas -/

/-- The spec's constraint on `month`: absent or in `1..12`. -/
def ValidMonth : Option Int → Prop
  | none => True
  | some m => 1 ≤ m ∧ m ≤ 12

instance (o : Option Int) : Decidable (ValidMonth o) := by
  cases o <;> dsimp [ValidMonth] <;> infer_instance

/-- The spec's data-model preconditions for a record: non-empty author
list, every author with at least two whitespace-separated tokens,
non-empty title and journal, truthy year, month absent or in `1..12`. -/
def ValidPub (p : Publication) : Prop :=
  p.authors ≠ [] ∧
  (∀ a ∈ p.authors, 2 ≤ (pySplitWs a).length) ∧
  p.title ≠ "" ∧ p.journal ≠ "" ∧ p.year ≠ 0 ∧ ValidMonth p.month

instance (p : Publication) : Decidable (ValidPub p) := by
  unfold ValidPub
  infer_instance

theorem pyMapM_ok {f : String → Except PyErr String} {l : List String}
    (h : ∀ a ∈ l, ∃ s, f a = .ok s ∧ (NoMarkup a → NoMarkup s)) :
    ∃ r, pyMapM f l = .ok r ∧ r.length = l.length ∧
      ((∀ a ∈ l, NoMarkup a) → ∀ s ∈ r, NoMarkup s) := by
  induction l with
  | nil => exact ⟨[], rfl, rfl, by simp⟩
  | cons a rest ih =>
    obtain ⟨s, hs, hns⟩ := h a (by simp)
    obtain ⟨r, hr, hlen, hnr⟩ := ih (fun x hx => h x (List.mem_cons_of_mem a hx))
    refine ⟨s :: r, ?_, by simp [hlen], ?_⟩
    · show (f a >>= fun b => pyMapM f rest >>= fun r => pure (b :: r)) = .ok (s :: r)
      rw [hs, exOk_bind, hr, exOk_bind, exPure]
    · intro hall t ht
      rcases List.mem_cons.mp ht with h1 | h1
      · exact h1 ▸ hns (hall a (by simp))
      · exact hnr (fun x hx => hall x (List.mem_cons_of_mem a hx)) t h1

theorem fas_apa_ok {p : Publication} (h1 : p.authors ≠ [])
    (h2 : ∀ a ∈ p.authors, 2 ≤ (pySplitWs a).length) :
    ∃ s, Publication.format_authors_apa p = .ok s ∧
      ((∀ a ∈ p.authors, NoMarkup a) → NoMarkup s) := by
  obtain ⟨r, hr, hlen, hnm⟩ := pyMapM_ok (fun a ha => fa_apa_ok (h2 a ha))
  have hrne : r ≠ [] := by
    intro hnil
    rw [hnil] at hlen
    exact h1 (List.length_eq_zero.mp hlen.symm)
  unfold Publication.format_authors_apa
  rw [hr, exOk_bind]
  split_ifs with hA hB hC
  · exact ⟨_, rfl, fun hall => hnm hall _ (headD_mem hrne)⟩
  · exact ⟨_, rfl, fun hall =>
      noMarkup_append (noMarkup_append (hnm hall _ (headD_mem hrne)) (by decide))
        (hnm hall _ (getLastD_mem hrne))⟩
  · rw [List.getLast?_eq_getLast r hrne]
    refine ⟨_, rfl, fun hall => ?_⟩
    apply noMarkup_append
    apply noMarkup_append
    · apply noMarkup_join (by decide)
      intro t ht
      exact hnm hall t (List.dropLast_subset _ ht)
    · decide
    · exact hnm hall _ (List.getLast_mem hrne)
  · refine ⟨_, rfl, fun hall => ?_⟩
    apply noMarkup_append
    apply noMarkup_append
    · apply noMarkup_join (by decide)
      intro t ht
      exact hnm hall t (List.take_subset _ _ ht)
    · decide
    · exact hnm hall _ (getLastD_mem hrne)

theorem fAuthorsMlaAux_ok (l : List String) :
    ∀ (i t : Nat), (∀ a ∈ l, 2 ≤ (pySplitWs a).length) →
    ∃ r, Publication.format_authors_mla_aux l i t = .ok r ∧
      ((∀ a ∈ l, NoMarkup a) → ∀ s ∈ r, NoMarkup s) := by
  induction l with
  | nil => exact fun i t _ => ⟨[], rfl, by simp⟩
  | cons a rest ih =>
    intro i t h
    obtain ⟨o, ho, hno⟩ := fa_mla_ok (h a (by simp)) i t
    obtain ⟨r, hr, hnr⟩ := ih (i + 1) t (fun x hx => h x (List.mem_cons_of_mem a hx))
    have hrest : (∀ x ∈ a :: rest, NoMarkup x) → ∀ s ∈ r, NoMarkup s :=
      fun hall => hnr (fun x hx => hall x (List.mem_cons_of_mem a hx))
    show ∃ q, (Publication.format_author_mla a i t >>= fun fa =>
      Publication.format_authors_mla_aux rest (i + 1) t >>= fun r =>
      match fa with
      | some s => if s ≠ "" then pure (s :: r) else pure r
      | none => pure r) = .ok q ∧ _
    rw [ho, exOk_bind, hr, exOk_bind]
    cases o with
    | none => exact ⟨r, rfl, hrest⟩
    | some s =>
      have hnos : (∀ x ∈ a :: rest, NoMarkup x) → NoMarkup s :=
        fun hall => hno (hall a (by simp)) s rfl
      show ∃ q, (if s ≠ "" then (pure (s :: r) : Except PyErr (List String)) else pure r) =
        .ok q ∧ ((∀ x ∈ a :: rest, NoMarkup x) → ∀ y ∈ q, NoMarkup y)
      by_cases hse : s ≠ ""
      · rw [if_pos hse]
        refine ⟨s :: r, rfl, fun hall q hq => ?_⟩
        rcases List.mem_cons.mp hq with h1 | h1
        · exact h1 ▸ hnos hall
        · exact hrest hall q h1
      · rw [if_neg hse]
        exact ⟨r, rfl, hrest⟩

theorem fas_mla_ok {p : Publication}
    (h2 : ∀ a ∈ p.authors, 2 ≤ (pySplitWs a).length) :
    ∃ s, Publication.format_authors_mla p = .ok s ∧
      ((∀ a ∈ p.authors, NoMarkup a) → NoMarkup s) := by
  obtain ⟨r, hr, hnr⟩ := fAuthorsMlaAux_ok p.authors 0 p.authors.length h2
  unfold Publication.format_authors_mla
  rw [hr, exOk_bind]
  exact ⟨_, rfl, fun hall => noMarkup_join (by decide) (hnr hall)⟩

theorem fas_ama_ok {p : Publication}
    (h2 : ∀ a ∈ p.authors, 2 ≤ (pySplitWs a).length) :
    ∃ s, Publication.format_authors_ama p = .ok s ∧
      ((∀ a ∈ p.authors, NoMarkup a) → NoMarkup s) := by
  obtain ⟨r, hr, _, hnm⟩ := pyMapM_ok (fun a ha => fa_ama_ok (h2 a ha))
  unfold Publication.format_authors_ama
  rw [hr, exOk_bind]
  split_ifs
  · refine ⟨_, rfl, fun hall => ?_⟩
    apply noMarkup_append
    · apply noMarkup_join (by decide)
      intro t ht
      exact hnm hall t (List.take_subset _ _ ht)
    · decide
  · exact ⟨_, rfl, fun hall => noMarkup_join (by decide) (hnm hall)⟩

theorem fas_nlm_ok {p : Publication}
    (h2 : ∀ a ∈ p.authors, 2 ≤ (pySplitWs a).length) :
    ∃ s, Publication.format_authors_nlm p = .ok s ∧
      ((∀ a ∈ p.authors, NoMarkup a) → NoMarkup s) := by
  obtain ⟨r, hr, _, hnm⟩ := pyMapM_ok (fun a ha => fa_nlm_ok (h2 a ha))
  unfold Publication.format_authors_nlm
  rw [hr, exOk_bind]
  split_ifs
  · refine ⟨_, rfl, fun hall => ?_⟩
    apply noMarkup_append
    · apply noMarkup_join (by decide)
      intro t ht
      exact hnm hall t (List.take_subset _ _ ht)
    · decide
  · exact ⟨_, rfl, fun hall => noMarkup_join (by decide) (hnm hall)⟩

theorem fas_chicago_ok {p : Publication} (h1 : p.authors ≠ []) :
    ∃ s, Publication.format_authors_chicago p = .ok s ∧
      ((∀ a ∈ p.authors, NoMarkup a) → NoMarkup s) := by
  unfold Publication.format_authors_chicago
  rw [if_neg (by simpa using h1)]
  split_ifs
  · exact ⟨_, rfl, fun hall => hall _ (headD_mem h1)⟩
  · exact ⟨_, rfl, fun hall =>
      noMarkup_append (noMarkup_append (hall _ (headD_mem h1)) (by decide))
        (hall _ (getLastD_mem h1))⟩
  · refine ⟨_, rfl, fun hall => ?_⟩
    apply noMarkup_append
    apply noMarkup_append
    · exact noMarkup_join (by decide) (fun t ht => hall t (List.dropLast_subset _ ht))
    · decide
    · exact hall _ (getLastD_mem h1)
  · exact ⟨_, rfl, fun hall =>
      noMarkup_append (hall _ (headD_mem h1)) (by decide)⟩

theorem fas_ieee_ok {p : Publication} (h1 : p.authors ≠ [])
    (h2 : ∀ a ∈ p.authors, 2 ≤ (pySplitWs a).length) (b : Bool) :
    ∃ s, Publication.format_authors_ieee p b = .ok s ∧
      ((∀ a ∈ p.authors, NoMarkup a) → NoMarkup s) := by
  obtain ⟨r, hr, hlen, hnm⟩ := pyMapM_ok (fun a ha => fa_ieee_ok (h2 a ha))
  have hrne : r ≠ [] := by
    intro hnil
    rw [hnil] at hlen
    exact h1 (List.length_eq_zero.mp hlen.symm)
  unfold Publication.format_authors_ieee
  rw [hr, exOk_bind]
  have hbody : ∀ (k : Nat),
      ∃ s, (if r.length ≥ k then (pure (r.headD "" ++ " et al.") : Except PyErr String)
        else match r.getLast? with
          | none => .error .indexError
          | some last => pure (pyJoin (", ") r.dropLast ++ " and " ++ last)) = .ok s ∧
        ((∀ a ∈ p.authors, NoMarkup a) → NoMarkup s) := by
    intro k
    split_ifs
    · exact ⟨_, rfl, fun hall =>
        noMarkup_append (hnm hall _ (headD_mem hrne)) (by decide)⟩
    · rw [List.getLast?_eq_getLast r hrne]
      refine ⟨_, rfl, fun hall => ?_⟩
      apply noMarkup_append
      apply noMarkup_append
      · exact noMarkup_join (by decide) (fun t ht => hnm hall t (List.dropLast_subset _ ht))
      · decide
      · exact hnm hall _ (List.getLast_mem hrne)
  cases b
  · exact hbody 6
  · exact hbody 3

/-! ### Occurrence of a segment inside a string -/

/-- `pat` occurs contiguously inside `s`. -/
def StrSeg (pat s : String) : Prop := ∃ u v, s = u ++ pat ++ v

theorem strAppend_empty (a : String) : a ++ "" = a := by
  apply String.ext
  rw [strData_append]
  show a.data ++ [] = a.data
  simp

theorem strSeg_appendR {pat a : String} (h : StrSeg pat a) (b : String) :
    StrSeg pat (a ++ b) := by
  obtain ⟨u, v, rfl⟩ := h
  exact ⟨u, v ++ b, by simp only [strAppend_assoc]⟩

theorem strSeg_appendL (a : String) {pat b : String} (h : StrSeg pat b) :
    StrSeg pat (a ++ b) := by
  obtain ⟨u, v, rfl⟩ := h
  exact ⟨a ++ u, v, by simp only [strAppend_assoc]⟩

theorem strSeg_ite_of {pat : String} (c : Prop) [Decidable c] {a b : String}
    (ha : StrSeg pat a) (hb : StrSeg pat b) : StrSeg pat (if c then a else b) := by
  split_ifs
  · exact ha
  · exact hb

theorem noMarkup_ite {c : Prop} [Decidable c] {x : String} (h : NoMarkup x) :
    NoMarkup (if c then x else "") := by
  split_ifs
  · exact h
  · decide

theorem months_noMarkup : ∀ s ∈ MONTHS, NoMarkup s := by decide

theorem pyStrOptStr_some (s : String) : pyStrOptStr (some s) = s := rfl

/-- The record's string-valued fields carry no markup characters. -/
def FieldsNoMarkup (p : Publication) : Prop :=
  (∀ a ∈ p.authors, NoMarkup a) ∧ NoMarkup p.title ∧ NoMarkup p.journal ∧
  (∀ s, p.pages = some s → NoMarkup s) ∧ (∀ s, p.doi = some s → NoMarkup s) ∧
  (∀ s, p.database = some s → NoMarkup s)

instance (p : Publication) : Decidable (FieldsNoMarkup p) := by
  unfold FieldsNoMarkup
  infer_instance

theorem strSeg_suffix3 (u A d P : String) : StrSeg (A ++ d ++ P) (u ++ A ++ d ++ P) :=
  ⟨u, "", by simp only [strAppend_assoc, strAppend_empty]⟩

/-! ### Assembler-level lemmas -/

theorem apa_raw_ok {p : Publication} (h1 : p.authors ≠ [])
    (h2 : ∀ a ∈ p.authors, 2 ≤ (pySplitWs a).length) :
    ∃ out, Publication.generate_apa_citation p "raw" = .ok out ∧
      (FieldsNoMarkup p → NoMarkup out) := by
  obtain ⟨au, hau, hnau⟩ := fas_apa_ok h1 h2
  unfold Publication.generate_apa_citation
  rw [if_pos rfl, hau, exOk_bind]
  refine ⟨_, rfl, fun hf => ?_⟩
  obtain ⟨hfa, hft, hfj, hfp, hfd, hfdb⟩ := hf
  have hnau' := hnau hfa
  split_ifs <;> (repeat' apply noMarkup_append) <;>
    first
      | exact hnau'
      | exact hft
      | exact hfj
      | exact intToString_noMarkup _
      | exact pyStrOptInt_noMarkup _
      | exact pyStrOptStr_noMarkup hfp
      | exact pyStrOptStr_noMarkup hfd
      | exact pyStrOptStr_noMarkup hfdb
      | decide

theorem strSeg_ite_app1 {pat x : String} {c : Prop} [Decidable c] (h : StrSeg pat x)
    (a1 : String) : StrSeg pat (if c then x ++ a1 else x) :=
  strSeg_ite_of c (strSeg_appendR h a1) h

theorem strSeg_ite_app2 {pat x : String} {c : Prop} [Decidable c] (h : StrSeg pat x)
    (a1 a2 : String) : StrSeg pat (if c then x ++ a1 ++ a2 else x) :=
  strSeg_ite_of c (strSeg_appendR (strSeg_appendR h a1) a2) h

theorem strSeg_ite_app3 {pat x : String} {c : Prop} [Decidable c] (h : StrSeg pat x)
    (a1 a2 a3 : String) : StrSeg pat (if c then x ++ a1 ++ a2 ++ a3 else x) :=
  strSeg_ite_of c (strSeg_appendR (strSeg_appendR (strSeg_appendR h a1) a2) a3) h

theorem strSeg_ite_app7 {pat x : String} {c : Prop} [Decidable c] (h : StrSeg pat x)
    (a1 a2 a3 a4 a5 a6 a7 : String) :
    StrSeg pat (if c then x ++ a1 ++ a2 ++ a3 ++ a4 ++ a5 ++ a6 ++ a7 else x) :=
  strSeg_ite_of c (strSeg_appendR (strSeg_appendR (strSeg_appendR (strSeg_appendR
    (strSeg_appendR (strSeg_appendR (strSeg_appendR h a1) a2) a3) a4) a5) a6) a7) h

theorem strSeg_ite_app8 {pat x : String} {c : Prop} [Decidable c] (h : StrSeg pat x)
    (a1 a2 a3 a4 a5 a6 a7 a8 : String) :
    StrSeg pat (if c then x ++ a1 ++ a2 ++ a3 ++ a4 ++ a5 ++ a6 ++ a7 ++ a8 else x) :=
  strSeg_ite_of c (strSeg_appendR (strSeg_appendR (strSeg_appendR (strSeg_appendR
    (strSeg_appendR (strSeg_appendR (strSeg_appendR (strSeg_appendR h a1) a2) a3) a4) a5)
      a6) a7) a8) h

theorem apa_html_ok {p : Publication} (h1 : p.authors ≠ [])
    (h2 : ∀ a ∈ p.authors, 2 ≤ (pySplitWs a).length) :
    ∃ out, Publication.generate_apa_citation p "html" = .ok out ∧
      StrSeg ("<i>" ++ p.title ++ "</i>") out ∧
      StrSeg ("<i>" ++ p.journal ++ "</i>") out ∧
      ∀ d, p.doi = some d →
        StrSeg ("<a href=\x27https://doi.org/" ++ d ++ "\x27>") out := by
  obtain ⟨au, hau, _⟩ := fas_apa_ok h1 h2
  unfold Publication.generate_apa_citation
  rw [if_neg (by decide), if_pos rfl, hau, exOk_bind]
  dsimp only
  refine ⟨_, rfl, ?_, ?_, ?_⟩
  · iterate 7 apply strSeg_appendR
    apply strSeg_ite_app2
    apply strSeg_ite_app3
    apply strSeg_ite_app3
    iterate 4 apply strSeg_appendR
    exact strSeg_suffix3 _ _ _ _
  · iterate 7 apply strSeg_appendR
    apply strSeg_ite_app2
    apply strSeg_ite_app3
    apply strSeg_ite_app3
    exact strSeg_suffix3 _ _ _ _
  · intro d hd
    rw [hd, pyStrOptStr_some]
    iterate 3 apply strSeg_appendR
    exact strSeg_suffix3 _ _ _ _

theorem mla_raw_ok {p : Publication}
    (h2 : ∀ a ∈ p.authors, 2 ≤ (pySplitWs a).length) :
    ∃ out, Publication.generate_mla_citation p "raw" = .ok out ∧
      (FieldsNoMarkup p → NoMarkup out) := by
  obtain ⟨au, hau, hnau⟩ := fas_mla_ok h2
  unfold Publication.generate_mla_citation
  rw [if_pos rfl, hau, exOk_bind]
  refine ⟨_, rfl, fun hf => ?_⟩
  obtain ⟨hfa, hft, hfj, hfp, hfd, hfdb⟩ := hf
  have hnau' := hnau hfa
  split_ifs <;> (repeat' apply noMarkup_append) <;>
    first
      | exact hnau'
      | exact hft
      | exact hfj
      | exact intToString_noMarkup _
      | exact pyStrOptInt_noMarkup _
      | exact pyStrOptStr_noMarkup hfp
      | exact pyStrOptStr_noMarkup hfd
      | exact pyStrOptStr_noMarkup hfdb
      | decide

theorem mla_html_ok {p : Publication}
    (h2 : ∀ a ∈ p.authors, 2 ≤ (pySplitWs a).length) :
    ∃ out, Publication.generate_mla_citation p "html" = .ok out ∧
      StrSeg ("<i>" ++ p.title ++ "</i>") out ∧
      StrSeg ("<i>" ++ p.journal ++ "</i>") out ∧
      ∀ d, p.doi = some d → d ≠ "" →
        StrSeg ("<a href=\x27https://doi.org/" ++ d ++ "\x27>") out := by
  obtain ⟨au, hau, _⟩ := fas_mla_ok h2
  unfold Publication.generate_mla_citation
  rw [if_neg (by decide), if_pos rfl, hau, exOk_bind]
  dsimp only
  refine ⟨_, rfl, ?_, ?_, ?_⟩
  · apply strSeg_ite_app7
    apply strSeg_ite_app3
    iterate 3 apply strSeg_appendR
    apply strSeg_ite_app2
    apply strSeg_ite_app2
    apply strSeg_ite_app2
    iterate 4 apply strSeg_appendR
    exact strSeg_suffix3 _ _ _ _
  · apply strSeg_ite_app7
    apply strSeg_ite_app3
    iterate 3 apply strSeg_appendR
    apply strSeg_ite_app2
    apply strSeg_ite_app2
    apply strSeg_ite_app2
    exact strSeg_suffix3 _ _ _ _
  · intro d hd hdne
    rw [hd, pyStrOptStr_some]
    rw [if_pos (show truthyOptStr (some d) = true by simp [truthyOptStr, hdne])]
    iterate 3 apply strSeg_appendR
    exact strSeg_suffix3 _ _ _ _

theorem ama_raw_ok {p : Publication}
    (h2 : ∀ a ∈ p.authors, 2 ≤ (pySplitWs a).length) :
    ∃ out, Publication.generate_ama_citation p "raw" = .ok out ∧
      (FieldsNoMarkup p → NoMarkup out) := by
  obtain ⟨au, hau, hnau⟩ := fas_ama_ok h2
  unfold Publication.generate_ama_citation
  rw [if_pos rfl, hau, exOk_bind]
  refine ⟨_, rfl, fun hf => ?_⟩
  obtain ⟨hfa, hft, hfj, hfp, hfd, hfdb⟩ := hf
  have hnau' := hnau hfa
  split_ifs <;> (repeat' apply noMarkup_append) <;>
    first
      | exact hnau'
      | exact hft
      | exact hfj
      | exact intToString_noMarkup _
      | exact pyStrOptInt_noMarkup _
      | exact pyStrOptStr_noMarkup hfp
      | exact pyStrOptStr_noMarkup hfd
      | exact pyStrOptStr_noMarkup hfdb
      | decide

theorem ama_html_ok {p : Publication}
    (h2 : ∀ a ∈ p.authors, 2 ≤ (pySplitWs a).length) :
    ∃ out, Publication.generate_ama_citation p "html" = .ok out ∧
      StrSeg ("<i>" ++ p.title ++ "</i>") out ∧
      StrSeg ("<i>" ++ p.journal ++ "</i>") out ∧
      ∀ d, p.doi = some d → d ≠ "" →
        StrSeg ("<a href=\x27https://doi.org/" ++ d ++ "\x27>") out := by
  obtain ⟨au, hau, _⟩ := fas_ama_ok h2
  unfold Publication.generate_ama_citation
  rw [if_neg (by decide), if_pos rfl, hau, exOk_bind]
  dsimp only
  refine ⟨_, rfl, ?_, ?_, ?_⟩
  · apply strSeg_ite_app7
    apply strSeg_ite_app3
    apply strSeg_ite_app3
    apply strSeg_ite_app2
    iterate 7 apply strSeg_appendR
    exact strSeg_suffix3 _ _ _ _
  · apply strSeg_ite_app7
    apply strSeg_ite_app3
    apply strSeg_ite_app3
    apply strSeg_ite_app2
    iterate 3 apply strSeg_appendR
    exact strSeg_suffix3 _ _ _ _
  · intro d hd hdne
    rw [hd, pyStrOptStr_some]
    rw [if_pos (show truthyOptStr (some d) = true by simp [truthyOptStr, hdne])]
    iterate 3 apply strSeg_appendR
    exact strSeg_suffix3 _ _ _ _

theorem month_bind_ok {p : Publication} (hm : ValidMonth p.month) :
    ∃ mn, getMonthName p.month = .ok mn ∧ NoMarkup mn := by
  unfold getMonthName
  cases hpm : p.month with
  | none => exact ⟨"", rfl, by decide⟩
  | some m =>
    rw [hpm] at hm
    obtain ⟨hm1, hm2⟩ := hm
    obtain ⟨s, hs, hsm, _⟩ := monthsGet_ok hm1 hm2
    refine ⟨s, ?_, months_noMarkup s hsm⟩
    have hm0 : m ≠ 0 := by omega
    rw [if_pos (show truthyOptInt (some m) = true by simp [truthyOptInt, hm0])]
    simpa using hs

theorem nlm_raw_ok {p : Publication}
    (h2 : ∀ a ∈ p.authors, 2 ≤ (pySplitWs a).length) (hm : ValidMonth p.month) :
    ∃ out, Publication.generate_raw_nlm_citation p = .ok out ∧
      (FieldsNoMarkup p → NoMarkup out) := by
  obtain ⟨au, hau, hnau⟩ := fas_nlm_ok h2
  obtain ⟨mn, hmn, hmnm⟩ := month_bind_ok hm
  unfold Publication.generate_raw_nlm_citation
  rw [hau, exOk_bind, hmn, exOk_bind]
  refine ⟨_, rfl, fun hf => ?_⟩
  obtain ⟨hfa, hft, hfj, hfp, hfd, hfdb⟩ := hf
  have hnau' := hnau hfa
  split_ifs <;> (repeat' apply noMarkup_append) <;>
    first
      | exact hnau'
      | exact hft
      | exact hfj
      | exact hmnm
      | exact intToString_noMarkup _
      | exact pyStrOptInt_noMarkup _
      | exact pyStrOptStr_noMarkup hfp
      | exact pyStrOptStr_noMarkup hfd
      | exact pyStrOptStr_noMarkup hfdb
      | decide

theorem nlm_html_ok {p : Publication}
    (h2 : ∀ a ∈ p.authors, 2 ≤ (pySplitWs a).length) (hm : ValidMonth p.month) :
    ∃ out, Publication.generate_html_nlm_citation p = .ok out ∧
      ∀ d, p.doi = some d → d ≠ "" →
        StrSeg ("<a href=\x27https://doi.org/" ++ d ++ "\x27>") out := by
  obtain ⟨au, hau, _⟩ := fas_nlm_ok h2
  obtain ⟨mn, hmn, _⟩ := month_bind_ok hm
  unfold Publication.generate_html_nlm_citation
  rw [hau, exOk_bind, hmn, exOk_bind]
  dsimp only
  refine ⟨_, rfl, ?_⟩
  intro d hd hdne
  rw [hd, pyStrOptStr_some]
  rw [if_pos (show truthyOptStr (some d) = true by simp [truthyOptStr, hdne])]
  iterate 3 apply strSeg_appendR
  exact strSeg_suffix3 _ _ _ _

theorem chicago_raw_ok {p : Publication} (h1 : p.authors ≠ [])
    (hm : ValidMonth p.month) :
    ∃ out, Publication.generate_raw_chicago_citation p = .ok out ∧
      (FieldsNoMarkup p → NoMarkup out) := by
  obtain ⟨au, hau, hnau⟩ := fas_chicago_ok h1
  obtain ⟨mn, hmn, hmnm⟩ := month_bind_ok hm
  unfold Publication.generate_raw_chicago_citation
  rw [hau, exOk_bind, hmn, exOk_bind]
  refine ⟨_, rfl, fun hf => ?_⟩
  obtain ⟨hfa, hft, hfj, hfp, hfd, hfdb⟩ := hf
  have hnau' := hnau hfa
  split_ifs <;> (repeat' apply noMarkup_append) <;>
    first
      | exact hnau'
      | exact hft
      | exact hfj
      | exact hmnm
      | exact intToString_noMarkup _
      | exact pyStrOptInt_noMarkup _
      | exact pyStrOptStr_noMarkup hfp
      | exact pyStrOptStr_noMarkup hfd
      | exact pyStrOptStr_noMarkup hfdb
      | decide

theorem chicago_html_ok {p : Publication} (h1 : p.authors ≠ [])
    (hm : ValidMonth p.month) :
    ∃ out, Publication.generate_html_chicago_citation p = .ok out ∧
      StrSeg ("<i>" ++ p.title ++ "</i>") out ∧
      StrSeg ("<i>" ++ p.journal ++ "</i>") out ∧
      ∀ d, p.doi = some d → d ≠ "" →
        StrSeg ("<a href=\x27https://doi.org/" ++ d ++ "\x27>") out := by
  obtain ⟨au, hau, _⟩ := fas_chicago_ok h1
  obtain ⟨mn, hmn, _⟩ := month_bind_ok hm
  unfold Publication.generate_html_chicago_citation
  rw [hau, exOk_bind, hmn, exOk_bind]
  dsimp only
  refine ⟨_, rfl, ?_, ?_, ?_⟩
  · apply strSeg_ite_app8
    iterate 12 apply strSeg_appendR
    exact strSeg_suffix3 _ _ _ _
  · apply strSeg_ite_app8
    iterate 8 apply strSeg_appendR
    exact strSeg_suffix3 _ _ _ _
  · intro d hd hdne
    rw [hd, pyStrOptStr_some]
    rw [if_pos (show truthyOptStr (some d) = true by simp [truthyOptStr, hdne])]
    iterate 4 apply strSeg_appendR
    exact strSeg_suffix3 _ _ _ _

theorem ieee_raw_ok {p : Publication} (h1 : p.authors ≠ [])
    (h2 : ∀ a ∈ p.authors, 2 ≤ (pySplitWs a).length) :
    ∃ out, Publication.generate_raw_ieee_citation p = .ok out ∧
      (FieldsNoMarkup p → NoMarkup out) := by
  obtain ⟨au, hau, hnau⟩ := fas_ieee_ok h1 h2 false
  unfold Publication.generate_raw_ieee_citation
  rw [hau, exOk_bind]
  refine ⟨_, rfl, fun hf => ?_⟩
  obtain ⟨hfa, hft, hfj, hfp, hfd, hfdb⟩ := hf
  have hnau' := hnau hfa
  split_ifs <;> (repeat' apply noMarkup_append) <;>
    first
      | exact hnau'
      | exact hft
      | exact hfj
      | exact intToString_noMarkup _
      | exact pyStrOptInt_noMarkup _
      | exact pyStrOptStr_noMarkup hfp
      | exact pyStrOptStr_noMarkup hfd
      | exact pyStrOptStr_noMarkup hfdb
      | decide

theorem ieee_html_ok {p : Publication} (h1 : p.authors ≠ [])
    (h2 : ∀ a ∈ p.authors, 2 ≤ (pySplitWs a).length) :
    ∃ out, Publication.generate_html_ieee_citation p = .ok out ∧
      StrSeg ("<i>" ++ p.title ++ "</i>") out ∧
      StrSeg ("<i>" ++ p.journal ++ "</i>") out ∧
      ∀ d, p.doi = some d → d ≠ "" →
        StrSeg ("<a href=\x27https://doi.org/" ++ d ++ "\x27>") out := by
  obtain ⟨au, hau, _⟩ := fas_ieee_ok h1 h2 false
  unfold Publication.generate_html_ieee_citation
  rw [hau, exOk_bind]
  dsimp only
  refine ⟨_, rfl, ?_, ?_, ?_⟩
  · apply strSeg_ite_app7
    iterate 13 apply strSeg_appendR
    exact strSeg_suffix3 _ _ _ _
  · apply strSeg_ite_app7
    iterate 9 apply strSeg_appendR
    exact strSeg_suffix3 _ _ _ _
  · intro d hd hdne
    rw [hd, pyStrOptStr_some]
    rw [if_pos (show truthyOptStr (some d) = true by simp [truthyOptStr, hdne])]
    iterate 3 apply strSeg_appendR
    exact strSeg_suffix3 _ _ _ _

/-! ### Dispatcher reductions -/

theorem dispatch_apa (p : Publication) (s : String) :
    Publication.generate_citation p "APA" s = Publication.generate_apa_citation p s := rfl

theorem dispatch_mla (p : Publication) (s : String) :
    Publication.generate_citation p "MLA" s = Publication.generate_mla_citation p s := rfl

theorem dispatch_ama (p : Publication) (s : String) :
    Publication.generate_citation p "AMA" s = Publication.generate_ama_citation p s := rfl

theorem dispatch_nlm_raw (p : Publication) :
    Publication.generate_citation p "NLM" "raw" = Publication.generate_raw_nlm_citation p := rfl

theorem dispatch_nlm_html (p : Publication) :
    Publication.generate_citation p "NLM" "html" = Publication.generate_html_nlm_citation p := rfl

theorem dispatch_chicago_raw (p : Publication) :
    Publication.generate_citation p "CHICAGO" "raw" =
      Publication.generate_raw_chicago_citation p := rfl

theorem dispatch_chicago_html (p : Publication) :
    Publication.generate_citation p "CHICAGO" "html" =
      Publication.generate_html_chicago_citation p := rfl

theorem dispatch_ieee_raw (p : Publication) :
    Publication.generate_citation p "IEEE" "raw" = Publication.generate_raw_ieee_citation p := rfl

theorem dispatch_ieee_html (p : Publication) :
    Publication.generate_citation p "IEEE" "html" = Publication.generate_html_ieee_citation p := rfl

theorem dispatch_bibtex (p : Publication) (enc : String) :
    Publication.generate_citation p "BIBTEX" enc = .ok (Publication.generate_bibtex p) := rfl

/-- The concrete record of the repository's test file (`tests/test.py`),
with the citekey derived as `doe2024`. -/
def sampleRec : Publication :=
  ⟨["John Doe", "Jane Smith", "Alice Johnson"], 2024, some 9,
   "A Comprehensive Study on Something Interesting", "Journal of Interesting Studies",
   some 34, some 2, some "123-145", some "10.1000/j.jis.2024.09.001", none, none,
   "doe2024"⟩

/-- C1: for every record satisfying the spec's data-model preconditions
(non-empty authors, each author with at least two whitespace-separated
tokens, non-empty title and journal, truthy year, month absent or in
`1..12`), `generate_citation` returns a string without raising for every
format in {APA, MLA, AMA, NLM, CHICAGO, IEEE} paired with each encoding in
{"raw", "html"}, and for BIBTEX (with either encoding). -/
theorem c1_generate_citation_total (p : Publication) (hv : ValidPub p) :
    (∀ fmt ∈ (["APA", "MLA", "AMA", "NLM", "CHICAGO", "IEEE"] : List String),
      ∀ enc ∈ (["raw", "html"] : List String),
      ∃ s, Publication.generate_citation p fmt enc = .ok s) ∧
    (∀ enc, ∃ s, Publication.generate_citation p "BIBTEX" enc = .ok s) := by
  obtain ⟨h1, h2, _, _, _, hm⟩ := hv
  constructor
  · intro fmt hfmt enc henc
    fin_cases hfmt <;> fin_cases henc
    · obtain ⟨out, ho, _⟩ := apa_raw_ok h1 h2
      exact ⟨out, (dispatch_apa p "raw").trans ho⟩
    · obtain ⟨out, ho, _⟩ := apa_html_ok h1 h2
      exact ⟨out, (dispatch_apa p "html").trans ho⟩
    · obtain ⟨out, ho, _⟩ := mla_raw_ok h2
      exact ⟨out, (dispatch_mla p "raw").trans ho⟩
    · obtain ⟨out, ho, _⟩ := mla_html_ok h2
      exact ⟨out, (dispatch_mla p "html").trans ho⟩
    · obtain ⟨out, ho, _⟩ := ama_raw_ok h2
      exact ⟨out, (dispatch_ama p "raw").trans ho⟩
    · obtain ⟨out, ho, _⟩ := ama_html_ok h2
      exact ⟨out, (dispatch_ama p "html").trans ho⟩
    · obtain ⟨out, ho, _⟩ := nlm_raw_ok h2 hm
      exact ⟨out, (dispatch_nlm_raw p).trans ho⟩
    · obtain ⟨out, ho, _⟩ := nlm_html_ok h2 hm
      exact ⟨out, (dispatch_nlm_html p).trans ho⟩
    · obtain ⟨out, ho, _⟩ := chicago_raw_ok h1 hm
      exact ⟨out, (dispatch_chicago_raw p).trans ho⟩
    · obtain ⟨out, ho, _⟩ := chicago_html_ok h1 hm
      exact ⟨out, (dispatch_chicago_html p).trans ho⟩
    · obtain ⟨out, ho, _⟩ := ieee_raw_ok h1 h2
      exact ⟨out, (dispatch_ieee_raw p).trans ho⟩
    · obtain ⟨out, ho, _⟩ := ieee_html_ok h1 h2
      exact ⟨out, (dispatch_ieee_html p).trans ho⟩
  · exact fun enc => ⟨_, dispatch_bibtex p enc⟩

/-- Witness for C1 at the test file's concrete record. -/
theorem c1_generate_citation_total_witness :
    ValidPub sampleRec ∧
    ((∀ fmt ∈ (["APA", "MLA", "AMA", "NLM", "CHICAGO", "IEEE"] : List String),
      ∀ enc ∈ (["raw", "html"] : List String),
      ∃ s, Publication.generate_citation sampleRec fmt enc = .ok s) ∧
    (∀ enc, ∃ s, Publication.generate_citation sampleRec "BIBTEX" enc = .ok s)) :=
  ⟨by decide, c1_generate_citation_total sampleRec (by decide)⟩

/-- C4: the end-to-end example — for the test file's record, construction
succeeds (deriving citekey `doe2024`) and `generate_citation("APA","raw")`
returns exactly the expected string. -/
theorem c4_apa_raw_end_to_end :
    Publication.init ["John Doe", "Jane Smith", "Alice Johnson"] (some 2024) (some 9)
      "A Comprehensive Study on Something Interesting" "Journal of Interesting Studies"
      (some 34) (some 2) (some "123-145") (some "10.1000/j.jis.2024.09.001")
      none none none = .ok sampleRec ∧
    Publication.generate_citation sampleRec "APA" "raw" =
      .ok "Doe, J., Smith, J., & Johnson, A. (2024). A Comprehensive Study on Something Interesting. Journal of Interesting Studies, 34(2), 123-145. https://doi.org/10.1000/j.jis.2024.09.001" :=
  ⟨rfl, rfl⟩

/-- C2 (amended): for any encoding other than `"raw"`/`"html"`, the
APA/MLA/AMA paths raise `CitationError` (the spec's ValidationError) while
the NLM/CHICAGO/IEEE paths raise `UnsupportedFormatError` — the very same
error class used for unknown formats, not a distinct kind — and any
`format_type` whose uppercase form is outside the recognized set raises
`UnsupportedFormatError`. -/
theorem c2_encoding_and_format_errors (p : Publication) :
    (∀ enc, enc ≠ "raw" → enc ≠ "html" →
      (Publication.generate_citation p "APA" enc =
        .error (.citationError "Invalid style type. Use 'raw' or 'html'.")) ∧
      (Publication.generate_citation p "MLA" enc =
        .error (.citationError "Invalid style type. Use 'raw' or 'html'.")) ∧
      (Publication.generate_citation p "AMA" enc =
        .error (.citationError "Invalid style type. Use 'raw' or 'html'.")) ∧
      (Publication.generate_citation p "NLM" enc =
        .error (.unsupportedFormatError (enc ++ " style is not supported."))) ∧
      (Publication.generate_citation p "CHICAGO" enc =
        .error (.unsupportedFormatError (enc ++ " style is not supported."))) ∧
      (Publication.generate_citation p "IEEE" enc =
        .error (.unsupportedFormatError (enc ++ " style is not supported.")))) ∧
    (∀ fmt enc, pyUpper fmt ∉
        (["APA", "MLA", "AMA", "NLM", "CHICAGO", "IEEE", "BIBTEX"] : List String) →
      Publication.generate_citation p fmt enc =
        .error (.unsupportedFormatError (pyUpper fmt ++ " format is not supported."))) := by
  constructor
  · intro enc h1 h2
    refine ⟨?_, ?_, ?_, ?_, ?_, ?_⟩
    · rw [dispatch_apa]
      unfold Publication.generate_apa_citation
      rw [if_neg h1, if_neg h2]
    · rw [dispatch_mla]
      unfold Publication.generate_mla_citation
      rw [if_neg h1, if_neg h2]
    · rw [dispatch_ama]
      unfold Publication.generate_ama_citation
      rw [if_neg h1, if_neg h2]
    · show (if enc = "raw" then Publication.generate_raw_nlm_citation p
        else if enc = "html" then Publication.generate_html_nlm_citation p
        else .error (.unsupportedFormatError (enc ++ " style is not supported."))) = _
      rw [if_neg h1, if_neg h2]
    · show (if enc = "raw" then Publication.generate_raw_chicago_citation p
        else if enc = "html" then Publication.generate_html_chicago_citation p
        else .error (.unsupportedFormatError (enc ++ " style is not supported."))) = _
      rw [if_neg h1, if_neg h2]
    · show (if enc = "raw" then Publication.generate_raw_ieee_citation p
        else if enc = "html" then Publication.generate_html_ieee_citation p
        else .error (.unsupportedFormatError (enc ++ " style is not supported."))) = _
      rw [if_neg h1, if_neg h2]
  · intro fmt enc hnot
    have h : ¬(pyUpper fmt = "APA" ∨ pyUpper fmt = "MLA" ∨ pyUpper fmt = "AMA" ∨
        pyUpper fmt = "NLM" ∨ pyUpper fmt = "CHICAGO" ∨ pyUpper fmt = "IEEE" ∨
        pyUpper fmt = "BIBTEX") := by simpa using hnot
    push_neg at h
    obtain ⟨n1, n2, n3, n4, n5, n6, n7⟩ := h
    unfold Publication.generate_citation
    dsimp only
    rw [if_neg n1, if_neg n2, if_neg n3, if_neg n4, if_neg n5, if_neg n6, if_neg n7]

/-- Witness for C2 at concrete inputs. -/
theorem c2_encoding_and_format_errors_witness :
    Publication.generate_citation sampleRec "MLA" "xml" =
      .error (.citationError "Invalid style type. Use 'raw' or 'html'.") ∧
    Publication.generate_citation sampleRec "FOO" "raw" =
      .error (.unsupportedFormatError "FOO format is not supported.") := by
  obtain ⟨hEnc, hFmt⟩ := c2_encoding_and_format_errors sampleRec
  obtain ⟨_, hmla, _⟩ := hEnc "xml" (by decide) (by decide)
  exact ⟨hmla, hFmt "FOO" "raw" (by decide)⟩

/-- C2 counterexample: for NLM with an unrecognized encoding the raised
error is `UnsupportedFormatError` — the same error class raised for an
unknown format — not a distinct `UnsupportedEncodingError` kind. -/
theorem c2_counterexample :
    Publication.generate_citation sampleRec "NLM" "xml" =
      .error (.unsupportedFormatError "xml style is not supported.") ∧
    Publication.generate_citation sampleRec "FOO" "raw" =
      .error (.unsupportedFormatError "FOO format is not supported.") :=
  ⟨rfl, rfl⟩

/-- C5 (amended): construction raises `CitationError` whenever authors is
empty or contains an empty entry, whenever title is empty, whenever journal
is empty, and whenever year is `None` or `0`; with all mandatory fields
present and truthy, construction succeeds *provided* that, when no truthy
citekey is supplied, `authors[0]` contains at least one whitespace-separated
token (otherwise the citekey derivation raises `IndexError`). -/
theorem c5_constructor_validation
    (authors : List String) (year month : Option Int) (title journal : String)
    (volume issue : Option Int) (pages doi database access_date citekey : Option String) :
    ((authors = [] ∨ ∃ a ∈ authors, a = "") →
      Publication.init authors year month title journal volume issue pages doi database
        access_date citekey =
        .error (.citationError "Authors are required and cannot be empty.")) ∧
    (authors ≠ [] → (∀ a ∈ authors, a ≠ "") → title = "" →
      Publication.init authors year month title journal volume issue pages doi database
        access_date citekey =
        .error (.citationError "Title is required and cannot be empty.")) ∧
    (authors ≠ [] → (∀ a ∈ authors, a ≠ "") → title ≠ "" → journal = "" →
      Publication.init authors year month title journal volume issue pages doi database
        access_date citekey =
        .error (.citationError "Journal or container name is required and cannot be empty.")) ∧
    (authors ≠ [] → (∀ a ∈ authors, a ≠ "") → title ≠ "" → journal ≠ "" →
      (year = none ∨ year = some 0) →
      Publication.init authors year month title journal volume issue pages doi database
        access_date citekey =
        .error (.citationError "Year is required and cannot be empty.")) ∧
    (authors ≠ [] → (∀ a ∈ authors, a ≠ "") → title ≠ "" → journal ≠ "" →
      year ≠ none → year ≠ some 0 →
      (truthyOptStr citekey = true ∨ pySplitWs (authors.headD "") ≠ []) →
      ∃ p, Publication.init authors year month title journal volume issue pages doi database
        access_date citekey = .ok p) := by
  refine ⟨?_, ?_, ?_, ?_, ?_⟩
  · intro h
    have hg : ¬¬(authors.isEmpty || !(authors.all (fun a => a ≠ ""))) = true := by
      rcases h with h | ⟨a, ha, hae⟩ <;> simp_all
    unfold Publication.init
    rw [if_pos (not_not.mp hg)]
  · intro h1 h2 h3
    have hg : ¬(authors.isEmpty || !(authors.all (fun a => a ≠ ""))) = true := by
      simp_all
      intro hmem
      exact h2 "" hmem rfl
    unfold Publication.init
    rw [if_neg hg, if_pos h3]
  · intro h1 h2 h3 h4
    have hg : ¬(authors.isEmpty || !(authors.all (fun a => a ≠ ""))) = true := by
      simp_all
      intro hmem
      exact h2 "" hmem rfl
    unfold Publication.init
    rw [if_neg hg, if_neg h3, if_pos h4]
  · intro h1 h2 h3 h4 h5
    have hg : ¬(authors.isEmpty || !(authors.all (fun a => a ≠ ""))) = true := by
      simp_all
      intro hmem
      exact h2 "" hmem rfl
    have hy : (year = none || year = some 0) = true := by
      rcases h5 with h | h <;> simp [h]
    unfold Publication.init
    rw [if_neg hg, if_neg h3, if_neg h4, if_pos hy]
  · intro h1 h2 h3 h4 h5 h6 h7
    have hg : ¬(authors.isEmpty || !(authors.all (fun a => a ≠ ""))) = true := by
      simp_all
      intro hmem
      exact h2 "" hmem rfl
    have hy : ¬(year = none || year = some 0) = true := by
      simp [h5, h6]
    unfold Publication.init
    rw [if_neg hg, if_neg h3, if_neg h4, if_neg hy]
    rcases h7 with h7 | h7
    · rw [if_pos h7]
      exact ⟨_, rfl⟩
    · split_ifs
      · exact ⟨_, rfl⟩
      · obtain ⟨x, hx, _⟩ := pyLast_ok h7
        rw [hx]
        exact ⟨_, rfl⟩

/-- C5 counterexample: all mandatory fields are present and truthy (the
single author `" "` is a non-empty, truthy string), yet construction raises
`IndexError` from `authors[0].split()[-1]` instead of succeeding. -/
theorem c5_counterexample :
    Publication.init [" "] (some 2024) none "T" "J" none none none none none none none =
      .error .indexError := rfl

/-- Witness for C5 at concrete inputs (empty author list, and a fully
valid record). -/
theorem c5_constructor_validation_witness :
    (Publication.init [] (some 2024) none "T" "J" none none none none none none none =
      .error (.citationError "Authors are required and cannot be empty.")) ∧
    ∃ p, Publication.init ["John Doe"] (some 2024) none "T" "J" none none none none none
      none none = .ok p := by
  obtain ⟨ha, _, _, _, hok⟩ := c5_constructor_validation [] (some 2024) none "T" "J"
    none none none none none none none
  obtain ⟨_, _, _, _, hok2⟩ := c5_constructor_validation ["John Doe"] (some 2024) none "T" "J"
    none none none none none none none
  exact ⟨ha (Or.inl rfl), hok2 (by decide) (by decide) (by decide) (by decide)
    (by decide) (by decide) (Or.inr (by decide))⟩

theorem pyLast_eq_getLastD {l : List String} {x : String} (h : pyLast l = .ok x) :
    l.getLastD "" = x := by
  unfold pyLast at h
  cases hg : l.getLast? with
  | none => rw [hg] at h; exact Except.noConfusion h
  | some y =>
    rw [hg] at h
    injection h with h
    rw [List.getLastD_eq_getLast?, hg]
    exact h

/-- C6 (amended): on every successful construction, when the citekey
argument is absent (or the falsy empty string), the stored citekey is the
lowercase of the last whitespace-separated token of `authors[0]` followed
by the decimal year; a *non-empty* supplied citekey is stored unchanged
(an empty one is falsy in Python and triggers the default derivation). -/
theorem c6_citekey_default (authors : List String) (year month : Option Int)
    (title journal : String) (volume issue : Option Int)
    (pages doi database access_date citekey : Option String) (p : Publication)
    (hok : Publication.init authors year month title journal volume issue pages doi
      database access_date citekey = .ok p) :
    ((citekey = none ∨ citekey = some "") →
      p.citekey = pyLower ((pySplitWs (authors.headD "")).getLastD "") ++ toString p.year) ∧
    (∀ ck, citekey = some ck → ck ≠ "" → p.citekey = ck) := by
  unfold Publication.init at hok
  split_ifs at hok with hga hgt hgj hgy hck
  · injection hok with hok
    subst hok
    constructor
    · intro hc
      rcases hc with hc | hc <;> rw [hc] at hck <;> simp [truthyOptStr] at hck
    · intro ck hckeq _
      show pyStrOptStr citekey = ck
      rw [hckeq, pyStrOptStr_some]
  · split at hok
    · exact Except.noConfusion hok
    · next tok heq =>
      injection hok with hok
      subst hok
      constructor
      · intro _
        show pyLower tok ++ toString (year.getD 0) = _
        rw [pyLast_eq_getLastD heq]
      · intro ck hckeq hckne
        rw [hckeq] at hck
        simp [truthyOptStr] at hck
        exact absurd hck hckne

/-- Witness for C6: the derived citekey of the test record. -/
theorem c6_citekey_default_witness :
    sampleRec.citekey =
      pyLower ((pySplitWs ((["John Doe", "Jane Smith", "Alice Johnson"] :
        List String).headD "")).getLastD "") ++ toString sampleRec.year := by
  obtain ⟨hd, _⟩ := c6_citekey_default ["John Doe", "Jane Smith", "Alice Johnson"]
    (some 2024) (some 9) "A Comprehensive Study on Something Interesting"
    "Journal of Interesting Studies" (some 34) (some 2) (some "123-145")
    (some "10.1000/j.jis.2024.09.001") none none none sampleRec rfl
  exact hd (Or.inl rfl)

/-- C6 counterexample: a supplied empty-string citekey is *not* used
unchanged — it is falsy, so the default `doe2024` is derived instead. -/
theorem c6_counterexample :
    ∃ p, Publication.init ["John Doe"] (some 2024) none "T" "J" none none none none none
      none (some "") = .ok p ∧ p.citekey = "doe2024" ∧ p.citekey ≠ "" :=
  ⟨_, rfl, rfl, by decide⟩

theorem append_et_al_ne_empty (x y : String) : x ++ ", " ++ y ++ " et al." ≠ "" := by
  intro h
  have hd := congrArg String.data h
  rw [strData_append, strData_append, strData_append] at hd
  simp only [List.append_eq_nil] at hd
  exact absurd hd.2 (by decide)

theorem mla_aux_tail_none (l : List String) :
    ∀ (i t : Nat), 1 ≤ i → 2 < t → (∀ x ∈ l, 2 ≤ (pySplitWs x).length) →
    Publication.format_authors_mla_aux l i t = .ok [] := by
  induction l with
  | nil => intros; rfl
  | cons x xs ih =>
    intro i t hi ht h
    have hx2 := h x (by simp)
    have hx : Publication.format_author_mla x i t = .ok none := by
      unfold Publication.format_author_mla
      rw [reSplitWsStrip_of_two hx2, if_neg (by omega),
        if_neg (by omega), if_neg (by omega), if_neg (fun hcon => by omega)]
    show (Publication.format_author_mla x i t >>= fun fa =>
      Publication.format_authors_mla_aux xs (i + 1) t >>= fun r =>
      match fa with
      | some s => if s ≠ "" then pure (s :: r) else pure r
      | none => pure r) = .ok []
    rw [hx, exOk_bind, ih (i + 1) t (by omega) ht (fun y hy => h y (by simp [hy])),
      exOk_bind]
    rfl

/-- C8: with three or more authors, the MLA author segment is exactly
`"Family, Given et al."` built from the first author alone; the remaining
authors contribute nothing, regardless of how many there are. -/
theorem c8_mla_three_plus_authors (p : Publication) (a b c : String) (rest : List String)
    (hal : p.authors = a :: b :: c :: rest)
    (h2 : ∀ x ∈ p.authors, 2 ≤ (pySplitWs x).length) :
    Publication.format_authors_mla p =
      .ok ((pySplitWs a).getLastD "" ++ ", " ++ pyJoin (" ") (pySplitWs a).dropLast ++
        " et al.") := by
  rw [hal] at h2
  have ht : 2 < (a :: b :: c :: rest).length := by simp
  have ha2 := h2 a (by simp)
  have ha : Publication.format_author_mla a 0 ((a :: b :: c :: rest).length) =
      .ok (some ((pySplitWs a).getLastD "" ++ ", " ++ pyJoin (" ") (pySplitWs a).dropLast ++
        " et al.")) := by
    unfold Publication.format_author_mla
    rw [reSplitWsStrip_of_two ha2, if_neg (by omega),
      if_neg (by omega), if_neg (by omega), if_pos ⟨ht, rfl⟩]
  unfold Publication.format_authors_mla
  rw [hal]
  show (Publication.format_authors_mla_aux (a :: b :: c :: rest) 0
    ((a :: b :: c :: rest).length) >>= fun l => pure (pyJoin (" ") l)) = _
  show ((Publication.format_author_mla a 0 ((a :: b :: c :: rest).length) >>= fun fa =>
    Publication.format_authors_mla_aux (b :: c :: rest) 1 ((a :: b :: c :: rest).length) >>=
      fun r =>
    match fa with
    | some s => if s ≠ "" then pure (s :: r) else pure r
    | none => pure r) >>= fun l => pure (pyJoin (" ") l)) = _
  rw [ha, exOk_bind,
    mla_aux_tail_none (b :: c :: rest) 1 ((a :: b :: c :: rest).length) (by omega) ht
      (fun y hy => h2 y (by simp [hy])), exOk_bind]
  dsimp only
  rw [if_pos (append_et_al_ne_empty _ _)]
  rfl

/-- Witness for C8 at the test record's three authors. -/
theorem c8_mla_three_plus_authors_witness :
    Publication.format_authors_mla sampleRec =
      .ok ((pySplitWs "John Doe").getLastD "" ++ ", " ++
        pyJoin (" ") (pySplitWs "John Doe").dropLast ++ " et al.") :=
  c8_mla_three_plus_authors sampleRec "John Doe" "Jane Smith" "Alice Johnson" [] rfl
    (by decide)

/-- C9: in the BibTeX output, `pages="123-145"` is rendered as the line
`pages = {123--145}`; absent volume/issue/doi produce no `volume`/`number`/
`doi` lines at all; authors are joined with the literal `" and "` using the
raw author strings. -/
theorem c9_bibtex_pages_and_omissions (p : Publication) (hp : p.pages = some "123-145")
    (hv : p.volume = none) (hi : p.issue = none) (hd : p.doi = none) :
    Publication.generate_bibtex p =
      "@article\x7b" ++ p.citekey ++ ",\n" ++
      "  author = \x7b" ++ pyJoin (" and ") p.authors ++ "\x7d,\n" ++
      "  title = \x7b" ++ p.title ++ "\x7d,\n" ++
      "  journal = \x7b" ++ p.journal ++ "\x7d,\n" ++
      "  year = \x7b" ++ toString p.year ++ "\x7d,\n" ++
      "  pages = \x7b" ++ "123--145" ++ "\x7d,\n" ++
      "\x7d" := by
  unfold Publication.generate_bibtex
  rw [hp, hv, hi, hd]
  dsimp only
  rw [if_neg (by decide), if_pos (by decide), if_neg (by decide), if_neg (by decide)]
  rw [show pyJoin ("--") (pySplitOnChar (pyStrOptStr (some "123-145")) '-') = "123--145"
    from rfl]

/-- Witness for C9 at a concrete record. -/
theorem c9_bibtex_pages_and_omissions_witness :
    Publication.generate_bibtex
      ⟨["John Doe"], 2024, none, "T", "J", none, none, some "123-145", none, none, none,
        "doe2024"⟩ =
      "@article\x7bdoe2024,\n  author = \x7bJohn Doe\x7d,\n  title = \x7bT\x7d,\n  journal = \x7bJ\x7d,\n  year = \x7b2024\x7d,\n  pages = \x7b123--145\x7d,\n\x7d" :=
  (c9_bibtex_pages_and_omissions
    ⟨["John Doe"], 2024, none, "T", "J", none, none, some "123-145", none, none, none,
      "doe2024"⟩ rfl rfl rfl rfl).trans rfl

theorem getMonthName_err {m : Int} (hm : 13 ≤ m) :
    getMonthName (some m) = .error .indexError := by
  unfold getMonthName
  have hm0 : m ≠ 0 := by omega
  rw [if_pos (show truthyOptInt (some m) = true by simp [truthyOptInt, hm0])]
  simpa using monthsGet_err hm

/-- C10 (amended): the constructor does not validate `month` — for any
month greater than 12 the record constructs successfully, and NLM and
CHICAGO (either encoding) raise `IndexError` from indexing the 13-entry
month table, rather than any documented error kind.  (A month of `0` is
falsy and renders without a month; a small negative month wraps via
Python's negative indexing.) -/
theorem c10_month_not_validated (m : Int) (hm : 13 ≤ m) :
    ∃ p, Publication.init ["John Doe"] (some 2024) (some m) "T" "J" none none none none
      none none none = .ok p ∧
      Publication.generate_citation p "NLM" "raw" = .error .indexError ∧
      Publication.generate_citation p "NLM" "html" = .error .indexError ∧
      Publication.generate_citation p "CHICAGO" "raw" = .error .indexError ∧
      Publication.generate_citation p "CHICAGO" "html" = .error .indexError := by
  refine ⟨⟨["John Doe"], 2024, some m, "T", "J", none, none, none, none, none, none,
    "doe2024"⟩, rfl, ?_, ?_, ?_, ?_⟩
  · rw [dispatch_nlm_raw]
    unfold Publication.generate_raw_nlm_citation
    dsimp only
    rw [show Publication.format_authors_nlm
      ⟨["John Doe"], 2024, some m, "T", "J", none, none, none, none, none, none,
        "doe2024"⟩ = .ok "John D" from rfl, exOk_bind, getMonthName_err hm, exErr_bind]
  · rw [dispatch_nlm_html]
    unfold Publication.generate_html_nlm_citation
    dsimp only
    rw [show Publication.format_authors_nlm
      ⟨["John Doe"], 2024, some m, "T", "J", none, none, none, none, none, none,
        "doe2024"⟩ = .ok "John D" from rfl, exOk_bind, getMonthName_err hm, exErr_bind]
  · rw [dispatch_chicago_raw]
    unfold Publication.generate_raw_chicago_citation
    dsimp only
    rw [show Publication.format_authors_chicago
      ⟨["John Doe"], 2024, some m, "T", "J", none, none, none, none, none, none,
        "doe2024"⟩ = .ok "John Doe" from rfl, exOk_bind, getMonthName_err hm, exErr_bind]
  · rw [dispatch_chicago_html]
    unfold Publication.generate_html_chicago_citation
    dsimp only
    rw [show Publication.format_authors_chicago
      ⟨["John Doe"], 2024, some m, "T", "J", none, none, none, none, none, none,
        "doe2024"⟩ = .ok "John Doe" from rfl, exOk_bind, getMonthName_err hm, exErr_bind]

/-- Witness for C10 at month 13. -/
theorem c10_month_not_validated_witness :
    ∃ p, Publication.init ["John Doe"] (some 2024) (some 13) "T" "J" none none none none
      none none none = .ok p ∧
      Publication.generate_citation p "NLM" "raw" = .error .indexError ∧
      Publication.generate_citation p "NLM" "html" = .error .indexError ∧
      Publication.generate_citation p "CHICAGO" "raw" = .error .indexError ∧
      Publication.generate_citation p "CHICAGO" "html" = .error .indexError :=
  c10_month_not_validated 13 (by omega)

/-- C10 counterexample: month `0` is outside `1..12`, construction
succeeds, yet NLM and CHICAGO do *not* raise IndexError — `0` is falsy, so
the month lookup is skipped entirely. -/
theorem c10_counterexample :
    ∃ p, Publication.init ["John Doe"] (some 2024) (some 0) "T" "J" none none none none
      none none none = .ok p ∧
      (∃ s, Publication.generate_citation p "NLM" "raw" = .ok s) ∧
      (∃ s, Publication.generate_citation p "CHICAGO" "raw" = .ok s) :=
  ⟨_, rfl, ⟨_, rfl⟩, ⟨_, rfl⟩⟩

theorem strSeg_isInfix {pat s : String} (h : StrSeg pat s) : pat.data <:+: s.data := by
  obtain ⟨u, v, rfl⟩ := h
  exact ⟨u.data, v.data, by rw [strData_append, strData_append]⟩

/-- C3 (amended): for every valid record, the "html" outputs of APA, MLA,
AMA, CHICAGO and IEEE wrap the title and the journal in `<i>...</i>`
(NLM's html output does not italicize them); whenever a DOI is rendered,
every html output wraps it in an anchor whose href is
`https://doi.org/{doi}`; and for records whose string fields contain no
markup characters, the "raw" outputs contain none either. -/
theorem c3_html_markup_raw_clean (p : Publication) (hv : ValidPub p) :
    (∀ fmt ∈ (["APA", "MLA", "AMA", "CHICAGO", "IEEE"] : List String),
      ∃ out, Publication.generate_citation p fmt "html" = .ok out ∧
        StrSeg ("<i>" ++ p.title ++ "</i>") out ∧
        StrSeg ("<i>" ++ p.journal ++ "</i>") out) ∧
    (∀ d, p.doi = some d → d ≠ "" →
      ∀ fmt ∈ (["APA", "MLA", "AMA", "NLM", "CHICAGO", "IEEE"] : List String),
      ∃ out, Publication.generate_citation p fmt "html" = .ok out ∧
        StrSeg ("<a href=\x27https://doi.org/" ++ d ++ "\x27>") out) ∧
    (FieldsNoMarkup p →
      ∀ fmt ∈ (["APA", "MLA", "AMA", "NLM", "CHICAGO", "IEEE"] : List String),
      ∃ out, Publication.generate_citation p fmt "raw" = .ok out ∧ NoMarkup out) := by
  obtain ⟨h1, h2, _, _, _, hm⟩ := hv
  refine ⟨?_, ?_, ?_⟩
  · intro fmt hfmt
    fin_cases hfmt
    · obtain ⟨out, ho, ht, hj, _⟩ := apa_html_ok h1 h2
      exact ⟨out, (dispatch_apa p "html").trans ho, ht, hj⟩
    · obtain ⟨out, ho, ht, hj, _⟩ := mla_html_ok h2
      exact ⟨out, (dispatch_mla p "html").trans ho, ht, hj⟩
    · obtain ⟨out, ho, ht, hj, _⟩ := ama_html_ok h2
      exact ⟨out, (dispatch_ama p "html").trans ho, ht, hj⟩
    · obtain ⟨out, ho, ht, hj, _⟩ := chicago_html_ok h1 hm
      exact ⟨out, (dispatch_chicago_html p).trans ho, ht, hj⟩
    · obtain ⟨out, ho, ht, hj, _⟩ := ieee_html_ok h1 h2
      exact ⟨out, (dispatch_ieee_html p).trans ho, ht, hj⟩
  · intro d hd hdne fmt hfmt
    fin_cases hfmt
    · obtain ⟨out, ho, _, _, ha⟩ := apa_html_ok h1 h2
      exact ⟨out, (dispatch_apa p "html").trans ho, ha d hd⟩
    · obtain ⟨out, ho, _, _, ha⟩ := mla_html_ok h2
      exact ⟨out, (dispatch_mla p "html").trans ho, ha d hd hdne⟩
    · obtain ⟨out, ho, _, _, ha⟩ := ama_html_ok h2
      exact ⟨out, (dispatch_ama p "html").trans ho, ha d hd hdne⟩
    · obtain ⟨out, ho, ha⟩ := nlm_html_ok h2 hm
      exact ⟨out, (dispatch_nlm_html p).trans ho, ha d hd hdne⟩
    · obtain ⟨out, ho, _, _, ha⟩ := chicago_html_ok h1 hm
      exact ⟨out, (dispatch_chicago_html p).trans ho, ha d hd hdne⟩
    · obtain ⟨out, ho, _, _, ha⟩ := ieee_html_ok h1 h2
      exact ⟨out, (dispatch_ieee_html p).trans ho, ha d hd hdne⟩
  · intro hf fmt hfmt
    fin_cases hfmt
    · obtain ⟨out, ho, hn⟩ := apa_raw_ok h1 h2
      exact ⟨out, (dispatch_apa p "raw").trans ho, hn hf⟩
    · obtain ⟨out, ho, hn⟩ := mla_raw_ok h2
      exact ⟨out, (dispatch_mla p "raw").trans ho, hn hf⟩
    · obtain ⟨out, ho, hn⟩ := ama_raw_ok h2
      exact ⟨out, (dispatch_ama p "raw").trans ho, hn hf⟩
    · obtain ⟨out, ho, hn⟩ := nlm_raw_ok h2 hm
      exact ⟨out, (dispatch_nlm_raw p).trans ho, hn hf⟩
    · obtain ⟨out, ho, hn⟩ := chicago_raw_ok h1 hm
      exact ⟨out, (dispatch_chicago_raw p).trans ho, hn hf⟩
    · obtain ⟨out, ho, hn⟩ := ieee_raw_ok h1 h2
      exact ⟨out, (dispatch_ieee_raw p).trans ho, hn hf⟩

/-- Witness for C3 at the test record. -/
theorem c3_html_markup_raw_clean_witness :
    (∃ out, Publication.generate_citation sampleRec "APA" "html" = .ok out ∧
      StrSeg ("<i>" ++ sampleRec.title ++ "</i>") out ∧
      StrSeg ("<i>" ++ sampleRec.journal ++ "</i>") out) ∧
    (∃ out, Publication.generate_citation sampleRec "NLM" "raw" = .ok out ∧
      NoMarkup out) := by
  obtain ⟨hi, _, hr⟩ := c3_html_markup_raw_clean sampleRec (by decide)
  exact ⟨hi "APA" (by decide), hr (by decide) "NLM" (by decide)⟩

set_option maxRecDepth 4000 in
/-- C3 counterexample: NLM's html output for the test record does not wrap
the title in italics markup — it contains no `<i>title</i>` segment at
all. -/
theorem c3_counterexample :
    ∃ out, Publication.generate_citation sampleRec "NLM" "html" = .ok out ∧
      ¬ StrSeg ("<i>" ++ sampleRec.title ++ "</i>") out :=
  ⟨_, rfl, fun hseg => absurd (strSeg_isInfix hseg) (by decide)⟩

theorem ite_append_opt {c : Prop} [Decidable c] (x y : String) :
    (if c then x ++ y else x) = x ++ (if c then y else "") := by
  split_ifs
  · rfl
  · exact (strAppend_empty x).symm

theorem ite_append_distrib {c : Prop} [Decidable c] (x y z : String) :
    (if c then x ++ y else x ++ z) = x ++ (if c then y else z) := by
  split_ifs <;> rfl

/-- C7 (amended): for every valid record — with *any* combination of
present and absent optional fields — the presence-guarded assemblers (MLA,
AMA and NLM, both encodings, and BibTeX) emit each optional field as a
self-contained segment, its leading punctuation bundled with it, and an
absent (falsy) field contributes the empty string: no placeholder text and
no stray punctuation.  The exceptions interpolate absent fields as the
`None` placeholder in both encodings: Chicago renders volume/issue/pages
unconditionally (the spec's carve-out), and additionally APA renders the
DOI unconditionally and IEEE renders volume/issue/pages unconditionally. -/
theorem c7_optional_fields_omitted (p : Publication) (hv : ValidPub p) :
    (∃ a, Publication.format_authors_mla p = .ok a ∧
      Publication.generate_citation p "MLA" "raw" =
        .ok (a ++ ". \"" ++ p.title ++ ".\" " ++ p.journal ++
          (if truthyOptInt p.volume then ", vol. " ++ pyStrOptInt p.volume else "") ++
          (if truthyOptInt p.issue then ", no. " ++ pyStrOptInt p.issue else "") ++
          (if truthyOptStr p.pages then ", pp. " ++ pyStrOptStr p.pages else "") ++
          ", " ++ toString p.year ++ "." ++
          (if truthyOptStr p.database then " " ++ pyStrOptStr p.database ++ "." else "") ++
          (if truthyOptStr p.doi then " doi:" ++ pyStrOptStr p.doi ++ "." else "")) ∧
      Publication.generate_citation p "MLA" "html" =
        .ok (a ++ ". \"" ++ "<i>" ++ p.title ++ "</i>" ++ ".\" " ++ "<i>" ++ p.journal ++
          "</i>" ++
          (if truthyOptInt p.volume then ", vol. " ++ pyStrOptInt p.volume else "") ++
          (if truthyOptInt p.issue then ", no. " ++ pyStrOptInt p.issue else "") ++
          (if truthyOptStr p.pages then ", pp. " ++ pyStrOptStr p.pages else "") ++
          ", " ++ toString p.year ++ "." ++
          (if truthyOptStr p.database then " <i>" ++ pyStrOptStr p.database ++ "</i>."
           else "") ++
          (if truthyOptStr p.doi then
            " doi:" ++ "<a href=\x27https://doi.org/" ++ pyStrOptStr p.doi ++ "\x27>" ++
              pyStrOptStr p.doi ++ "</a>" ++ "."
          else ""))) ∧
    (∃ a, Publication.format_authors_ama p = .ok a ∧
      Publication.generate_citation p "AMA" "raw" =
        .ok (a ++ ". " ++ p.title ++ ". " ++ p.journal ++ ". " ++ toString p.year ++ ";" ++
          (if truthyOptInt p.volume then pyStrOptInt p.volume else "") ++
          (if truthyOptInt p.issue then "(" ++ pyStrOptInt p.issue ++ ")" else "") ++
          (if truthyOptStr p.pages then ":" ++ pyStrOptStr p.pages ++ "." else "") ++
          (if truthyOptStr p.doi then " doi:" ++ pyStrOptStr p.doi ++ "." else "")) ∧
      Publication.generate_citation p "AMA" "html" =
        .ok (a ++ ". " ++ "<i>" ++ p.title ++ "</i>" ++ ". " ++ "<i>" ++ p.journal ++
          "</i>" ++ ". " ++ toString p.year ++ ";" ++
          (if truthyOptInt p.volume then " " ++ pyStrOptInt p.volume else "") ++
          (if truthyOptInt p.issue then "(" ++ pyStrOptInt p.issue ++ ")" else "") ++
          (if truthyOptStr p.pages then ":" ++ pyStrOptStr p.pages ++ "." else "") ++
          (if truthyOptStr p.doi then
            " doi:" ++ "<a href=\x27https://doi.org/" ++ pyStrOptStr p.doi ++ "\x27>" ++
              pyStrOptStr p.doi ++ "</a>" ++ "."
          else ""))) ∧
    (∃ a mn, Publication.format_authors_nlm p = .ok a ∧ getMonthName p.month = .ok mn ∧
      Publication.generate_citation p "NLM" "raw" =
        .ok (a ++ ". " ++ p.title ++ ". " ++ p.journal ++ "." ++
          (if mn ≠ "" then " " ++ toString p.year ++ " " ++ mn ++ ";"
           else " " ++ toString p.year ++ ";") ++
          (if truthyOptInt p.volume then pyStrOptInt p.volume else "") ++
          (if truthyOptInt p.issue then "(" ++ pyStrOptInt p.issue ++ ")" else "") ++
          (if truthyOptStr p.pages then ":" ++ pyStrOptStr p.pages else "") ++
          (if truthyOptStr p.doi then ". doi:" ++ pyStrOptStr p.doi ++ "." else "")) ∧
      Publication.generate_citation p "NLM" "html" =
        .ok (a ++ ". " ++ p.title ++ ". " ++ p.journal ++ "." ++
          (if mn ≠ "" then " " ++ toString p.year ++ " " ++ mn ++ ";"
           else " " ++ toString p.year ++ ";") ++
          (if truthyOptInt p.volume then pyStrOptInt p.volume else "") ++
          (if truthyOptInt p.issue then "(" ++ pyStrOptInt p.issue ++ ")" else "") ++
          (if truthyOptStr p.pages then ":" ++ pyStrOptStr p.pages else "") ++
          (if truthyOptStr p.doi then
            ". doi:" ++ "<a href=\x27https://doi.org/" ++ pyStrOptStr p.doi ++ "\x27>" ++
              pyStrOptStr p.doi ++ "</a>" ++ "."
          else ""))) ∧
    (Publication.generate_bibtex p =
      "@article\x7b" ++ p.citekey ++ ",\n" ++
      "  author = \x7b" ++ pyJoin (" and ") p.authors ++ "\x7d,\n" ++
      "  title = \x7b" ++ p.title ++ "\x7d,\n" ++
      "  journal = \x7b" ++ p.journal ++ "\x7d,\n" ++
      "  year = \x7b" ++ toString p.year ++ "\x7d,\n" ++
      (if truthyOptInt p.volume then "  volume = \x7b" ++ pyStrOptInt p.volume ++ "\x7d,\n"
       else "") ++
      (if truthyOptInt p.issue then "  number = \x7b" ++ pyStrOptInt p.issue ++ "\x7d,\n"
       else "") ++
      (if truthyOptStr p.pages then
        "  pages = \x7b" ++ pyJoin ("--") (pySplitOnChar (pyStrOptStr p.pages) '-') ++
          "\x7d,\n"
      else "") ++
      (if truthyOptStr p.doi then "  doi = \x7b" ++ pyStrOptStr p.doi ++ "\x7d,\n" else "") ++
      "\x7d") ∧
    (∃ a, Publication.format_authors_apa p = .ok a ∧
      Publication.generate_citation p "APA" "raw" =
        .ok (a ++ " (" ++ toString p.year ++ "). " ++ p.title ++ ". " ++ p.journal ++
          (if truthyOptInt p.volume then ", " ++ pyStrOptInt p.volume else "") ++
          (if truthyOptInt p.issue then "(" ++ pyStrOptInt p.issue ++ ")" else "") ++
          (if truthyOptStr p.pages then ", " ++ pyStrOptStr p.pages else "") ++
          ". https://doi.org/" ++ pyStrOptStr p.doi) ∧
      Publication.generate_citation p "APA" "html" =
        .ok (a ++ " (" ++ toString p.year ++ "). " ++ "<i>" ++ p.title ++ "</i>" ++ ". " ++
          "<i>" ++ p.journal ++ "</i>" ++
          (if truthyOptInt p.volume then ", <b>" ++ pyStrOptInt p.volume ++ "</b>" else "") ++
          (if truthyOptInt p.issue then "(" ++ pyStrOptInt p.issue ++ ")" else "") ++
          (if truthyOptStr p.pages then ", " ++ pyStrOptStr p.pages else "") ++
          ". " ++ "<a href=\x27https://doi.org/" ++ pyStrOptStr p.doi ++ "\x27>" ++
          "https://doi.org/" ++ pyStrOptStr p.doi ++ "</a>")) ∧
    (∃ a, Publication.format_authors_ieee p false = .ok a ∧
      Publication.generate_citation p "IEEE" "raw" =
        .ok (a ++ ", \"" ++ p.title ++ ",\" " ++ p.journal ++ ", vol. " ++
          pyStrOptInt p.volume ++ ", no. " ++ pyStrOptInt p.issue ++ ", pp. " ++
          pyStrOptStr p.pages ++ ", " ++ toString p.year ++ "." ++
          (if truthyOptStr p.doi then " doi: " ++ pyStrOptStr p.doi ++ "." else "")) ∧
      Publication.generate_citation p "IEEE" "html" =
        .ok (a ++ ", \"" ++ "<i>" ++ p.title ++ "</i>" ++ ",\" " ++ "<i>" ++ p.journal ++
          "</i>" ++ ", vol. " ++ pyStrOptInt p.volume ++ ", no. " ++ pyStrOptInt p.issue ++
          ", pp. " ++ pyStrOptStr p.pages ++ ", " ++ toString p.year ++ "." ++
          (if truthyOptStr p.doi then
            " doi: " ++ "<a href=\x27https://doi.org/" ++ pyStrOptStr p.doi ++ "\x27>" ++
              pyStrOptStr p.doi ++ "</a>" ++ "."
          else ""))) ∧
    (∃ a mn, Publication.format_authors_chicago p = .ok a ∧
      getMonthName p.month = .ok mn ∧
      Publication.generate_citation p "CHICAGO" "raw" =
        .ok (a ++ ". \"" ++ p.title ++ ".\" " ++ p.journal ++ " " ++ pyStrOptInt p.volume ++
          ", no. " ++ pyStrOptInt p.issue ++
          (if mn ≠ "" then " (" ++ mn ++ " " ++ toString p.year ++ ")"
           else " (" ++ toString p.year ++ ")") ++
          ": " ++ pyStrOptStr p.pages ++ "." ++
          (if truthyOptStr p.doi then " https://doi.org/" ++ pyStrOptStr p.doi ++ "."
           else "")) ∧
      Publication.generate_citation p "CHICAGO" "html" =
        .ok (a ++ ". \"" ++ "<i>" ++ p.title ++ "</i>" ++ ".\" " ++ "<i>" ++ p.journal ++
          "</i>" ++ " " ++ pyStrOptInt p.volume ++ ", no. " ++ pyStrOptInt p.issue ++
          (if mn ≠ "" then " (" ++ mn ++ " " ++ toString p.year ++ ")"
           else " (" ++ toString p.year ++ ")") ++
          ": " ++ pyStrOptStr p.pages ++ "." ++
          (if truthyOptStr p.doi then
            " " ++ "<a href=\x27https://doi.org/" ++ pyStrOptStr p.doi ++ "\x27>" ++
              "https://doi.org/" ++ pyStrOptStr p.doi ++ "</a>" ++ "."
          else ""))) ∧
    (pyStrOptInt none = "None" ∧ pyStrOptStr none = "None") := by
  obtain ⟨h1, h2, _, _, _, hm⟩ := hv
  refine ⟨?_, ?_, ?_, ?_, ?_, ?_, ?_, rfl, rfl⟩
  · obtain ⟨a, ha, _⟩ := fas_mla_ok h2
    refine ⟨a, ha, ?_, ?_⟩
    · rw [dispatch_mla]
      unfold Publication.generate_mla_citation
      rw [if_pos rfl, ha, exOk_bind]
      dsimp only
      rw [exPure]
      apply congrArg
      simp only [strAppend_assoc, ite_append_distrib, ite_append_opt]
    · rw [dispatch_mla]
      unfold Publication.generate_mla_citation
      rw [if_neg (by decide), if_pos rfl, ha, exOk_bind]
      dsimp only
      rw [exPure]
      apply congrArg
      simp only [strAppend_assoc, ite_append_distrib, ite_append_opt]
  · obtain ⟨a, ha, _⟩ := fas_ama_ok h2
    refine ⟨a, ha, ?_, ?_⟩
    · rw [dispatch_ama]
      unfold Publication.generate_ama_citation
      rw [if_pos rfl, ha, exOk_bind]
      dsimp only
      rw [exPure]
      apply congrArg
      simp only [strAppend_assoc, ite_append_distrib, ite_append_opt]
    · rw [dispatch_ama]
      unfold Publication.generate_ama_citation
      rw [if_neg (by decide), if_pos rfl, ha, exOk_bind]
      dsimp only
      rw [exPure]
      apply congrArg
      simp only [strAppend_assoc, ite_append_distrib, ite_append_opt]
  · obtain ⟨a, ha, _⟩ := fas_nlm_ok h2
    obtain ⟨mn, hmn, _⟩ := month_bind_ok hm
    refine ⟨a, mn, ha, hmn, ?_, ?_⟩
    · rw [dispatch_nlm_raw]
      unfold Publication.generate_raw_nlm_citation
      rw [ha, exOk_bind, hmn, exOk_bind]
      dsimp only
      rw [exPure]
      apply congrArg
      simp only [strAppend_assoc, ite_append_distrib, ite_append_opt]
    · rw [dispatch_nlm_html]
      unfold Publication.generate_html_nlm_citation
      rw [ha, exOk_bind, hmn, exOk_bind]
      dsimp only
      rw [exPure]
      apply congrArg
      simp only [strAppend_assoc, ite_append_distrib, ite_append_opt]
  · unfold Publication.generate_bibtex
    dsimp only
    simp only [strAppend_assoc, ite_append_distrib, ite_append_opt]
  · obtain ⟨a, ha, _⟩ := fas_apa_ok h1 h2
    refine ⟨a, ha, ?_, ?_⟩
    · rw [dispatch_apa]
      unfold Publication.generate_apa_citation
      rw [if_pos rfl, ha, exOk_bind]
      dsimp only
      rw [exPure]
      apply congrArg
      simp only [strAppend_assoc, ite_append_distrib, ite_append_opt]
    · rw [dispatch_apa]
      unfold Publication.generate_apa_citation
      rw [if_neg (by decide), if_pos rfl, ha, exOk_bind]
      dsimp only
      rw [exPure]
      apply congrArg
      simp only [strAppend_assoc, ite_append_distrib, ite_append_opt]
  · obtain ⟨a, ha, _⟩ := fas_ieee_ok h1 h2 false
    refine ⟨a, ha, ?_, ?_⟩
    · rw [dispatch_ieee_raw]
      unfold Publication.generate_raw_ieee_citation
      rw [ha, exOk_bind]
      dsimp only
      rw [exPure]
      apply congrArg
      simp only [strAppend_assoc, ite_append_distrib, ite_append_opt]
    · rw [dispatch_ieee_html]
      unfold Publication.generate_html_ieee_citation
      rw [ha, exOk_bind]
      dsimp only
      rw [exPure]
      apply congrArg
      simp only [strAppend_assoc, ite_append_distrib, ite_append_opt]
  · obtain ⟨a, ha, _⟩ := fas_chicago_ok h1
    obtain ⟨mn, hmn, _⟩ := month_bind_ok hm
    refine ⟨a, mn, ha, hmn, ?_, ?_⟩
    · rw [dispatch_chicago_raw]
      unfold Publication.generate_raw_chicago_citation
      rw [ha, exOk_bind, hmn, exOk_bind]
      dsimp only
      rw [exPure]
      apply congrArg
      simp only [strAppend_assoc, ite_append_distrib, ite_append_opt]
    · rw [dispatch_chicago_html]
      unfold Publication.generate_html_chicago_citation
      rw [ha, exOk_bind, hmn, exOk_bind]
      dsimp only
      rw [exPure]
      apply congrArg
      simp only [strAppend_assoc, ite_append_distrib, ite_append_opt]

/-- Witness for C7 at a mixed-presence record: volume and doi present,
issue, pages and database absent. -/
theorem c7_optional_fields_omitted_witness :
    Publication.generate_citation
      ⟨["John Doe"], 2024, some 9, "T", "J", some 34, none, none, some "d", none, none,
        "doe2024"⟩ "MLA" "raw" =
      .ok "Doe, John. \"T.\" J, vol. 34, 2024. doi:d." ∧
    Publication.generate_citation
      ⟨["John Doe"], 2024, some 9, "T", "J", some 34, none, none, some "d", none, none,
        "doe2024"⟩ "IEEE" "raw" =
      .ok " and J. Doe, \"T,\" J, vol. 34, no. None, pp. None, 2024. doi: d." := by
  obtain ⟨hmla, _, _, _, _, hieee, _⟩ := c7_optional_fields_omitted
    ⟨["John Doe"], 2024, some 9, "T", "J", some 34, none, none, some "d", none, none,
      "doe2024"⟩ (by decide)
  constructor
  · obtain ⟨a, ha, hr, _⟩ := hmla
    have haEq : a = "Doe, John" := by
      have h := ha.symm.trans (show Publication.format_authors_mla
        ⟨["John Doe"], 2024, some 9, "T", "J", some 34, none, none, some "d", none, none,
          "doe2024"⟩ = .ok "Doe, John" from rfl)
      injection h
    rw [hr, haEq]
    rfl
  · obtain ⟨a, ha, hr, _⟩ := hieee
    have haEq : a = " and J. Doe" := by
      have h := ha.symm.trans (show Publication.format_authors_ieee
        ⟨["John Doe"], 2024, some 9, "T", "J", some 34, none, none, some "d", none, none,
          "doe2024"⟩ false = .ok " and J. Doe" from rfl)
      injection h
    rw [hr, haEq]
    rfl

/-- C7 counterexample: with the DOI absent, the APA raw output still
contains the placeholder text `None` (from the unconditional
`https://doi.org/{doi}` interpolation). -/
theorem c7_counterexample :
    ∃ out, Publication.generate_citation
      ⟨["John Doe"], 2024, none, "T", "J", none, none, none, none, none, none, "doe2024"⟩
      "APA" "raw" = .ok out ∧ ("None".data <:+: out.data) :=
  ⟨_, rfl, by decide⟩
